import Mathlib

/-! DirectX12 level renderer: a shallow embedding of `DirectX12/renderer.h`.

The development embeds the parts of `class Renderer` that decide the behaviour of
the transform compositor (`LinkChildrenToParent`), the frame resource ring
(`UpdateTransformsForGPU`, `InitializeStructuredBuffersAndViews`), the level swap
(`HandleLevelSwapping`) and frame submission (`Render`).

Conventions of the embedding.

* `std::vector<T>` is a `List T`; `v[i]` is unchecked in C++, so a read or write
  outside the vector is undefined behaviour and is modelled as `none`.
* A GPU buffer (`ComPtr<ID3D12Resource>`) is `Option (List T)`: `none` is the null
  pointer, `some xs` a committed resource with room for `xs.length` elements that
  currently holds `xs`. The renderer discards every `HRESULT`; the device is taken
  to grant every request except a zero-byte buffer and a zero-descriptor heap, which
  it refuses, leaving the pointer null for the unchecked call that follows.
* `GW::MATH::GMATRIXF` is an abstract type `M` with a multiplication
  (`GMatrix::MultiplyMatrixF a b out` stores `a * b` in `out`).
* Table fields, counts and loop counters are natural numbers. The numeric fields of
  the level tables are taken to be 32-bit `unsigned` (`parentTransformIndex`, which
  the renderer compares with `-1`, a signed `int`). Every value handed to a 32-bit
  parameter, member or local (`unsigned int sizeInBytes`, `unsigned
  structureBufferSize`, the `UINT` and `INT` arguments of `DrawIndexedInstanced`,
  the `unsigned` members of `MESH_DATA`, `int model`, `int mesh` and the unsigned
  sum `meshStart + meshCount`) is reduced explicitly with `toUINT` or `toINT`;
  `size_t` products are taken not to wrap, and a vector is taken to have fewer than
  `2^31` elements, so that an `int` counter running over it does not overflow.
* A call that does not return a renderer, by undefined behaviour or by `abort()`,
  is `none`.
* Camera, lighting and audio work on floating point data or on outside
  collaborators and are left out of the state; the outcome of the two shader
  compilations is an input of the constructor.
-/

namespace LevelRenderer

/-! ## Level data (the tables `Renderer` reads through `levelHandle`) -/

/-- Draw range of a mesh, read by `Render` as `drawInfo.indexCount` and
`drawInfo.indexOffset`. The level table types are declared outside `renderer.h`;
they are given the fields the renderer reads. -/
structure BATCH where
  indexCount : Nat
  indexOffset : Nat
  deriving DecidableEq, Repr

/-- Modelled from the spec: the element type of `levelMeshes` is declared outside
`renderer.h`; the renderer reads `drawInfo`, and the spec describes a mesh as a
draw range "tagged with a material index", which is the field `materialIndex`. -/
structure MESH where
  drawInfo : BATCH
  materialIndex : Nat
  deriving DecidableEq, Repr

/-- Element of `levelModels`: a contiguous range of meshes plus base offsets. -/
structure LEVEL_MODEL where
  vertexStart : Nat
  indexStart : Nat
  meshStart : Nat
  meshCount : Nat
  deriving DecidableEq, Repr

/-- Element of `levelInstances`: a model placed at a range of transforms. -/
structure MODEL_INSTANCES where
  modelIndex : Nat
  transformStart : Nat
  transformCount : Nat
  deriving DecidableEq, Repr

/-- Element of `blenderObjects`; `parentTransformIndex = -1` means "no parent". -/
structure BLENDER_OBJECT where
  transformIndex : Nat
  parentTransformIndex : Int
  deriving DecidableEq, Repr

/-- Element of `levelMaterials`; only `attrib` is copied to the GPU. -/
structure MATERIAL (A : Type) where
  attrib : A
  deriving DecidableEq, Repr

/-- The level tables behind `Level_Data& levelHandle`. -/
structure Level_Data (M V A : Type) where
  levelVertices : List V
  levelIndices : List Nat
  levelTransforms : List M
  levelMaterials : List (MATERIAL A)
  levelMeshes : List MESH
  levelModels : List LEVEL_MODEL
  levelInstances : List MODEL_INSTANCES
  blenderObjects : List BLENDER_OBJECT

/-- The two entry points of `Level_Data` that the renderer calls and whose bodies
live outside `renderer.h`. `LoadLevel` yields the tables the handle holds after
the call and the success flag it returns (which the renderer never inspects). -/
structure LevelLoader (M V A P : Type) where
  UnloadLevel : Level_Data M V A → Level_Data M V A
  LoadLevel : P → P → Level_Data M V A → Level_Data M V A × Bool

/-! ## Renderer state -/

/-- The per-draw root constants `MESH_DATA`, two `unsigned` members. -/
structure MESH_DATA where
  materialIndex : Nat
  transformIndexStart : Nat
  deriving DecidableEq, Repr

/-- Calls made to outside collaborators (level loader, logger, device), kept as a
ghost log so that "nothing was unloaded, loaded or rebuilt" can be stated. -/
inductive Effect (P : Type) where
  | UnloadLevel
  | LoadLevel (gameLevelPath levelModelPath : P)
  | Log_SwitchedLevels
  | ResetBuffers
  | CreateVertexBuffer (sizeInBytes : Nat)
  | CreateIndexBuffer (sizeInBytes : Nat)
  | CreateTransformBuffer (slot structureBufferSize : Nat)
  | CreateMaterialBuffer (slot structureBufferSize : Nat)
  deriving DecidableEq, Repr

/-- The members of `class Renderer` that the modelled methods read or write. -/
structure Renderer (M V A P : Type) where
  levelHandle : Level_Data M V A
  transformsForGPU : List M
  maxActiveFrames : Nat
  vertexBuffer : Option (List V)
  indexBuffer : Option (List Nat)
  transformStructuredBuffer : List (Option (List M))
  materialStructuredBuffer : List (Option (List A))
  descriptorHeap : Option Nat
  meshDataForGPU : MESH_DATA
  level1 : Bool
  level2 : Bool
  gameLevelPaths : List P
  levelModelPaths : List P
  effects : List (Effect P)

variable {M V A P : Type}

/-! ## Machine integers and element sizes -/

/-- Number of values of a 32-bit `UINT` or `unsigned int`. -/
def UINT_RANGE : Nat := 4294967296

/-- Conversion to a 32-bit unsigned value. -/
def toUINT (n : Nat) : Nat := n % UINT_RANGE

/-- Largest value of a 32-bit `int`. -/
def INT_MAX : Nat := 2147483647

/-- Conversion of an unsigned value to a 32-bit `INT`: values from `2^31` on come
out negative. -/
def toINT (n : Nat) : Int :=
  if toUINT n < 2147483648 then (toUINT n : Int) else (toUINT n : Int) - 4294967296

/-- The `sizeof` of an element type that is declared outside `renderer.h`
(`GW::MATH::GMATRIXF`, `H2B::VERTEX`, `H2B::ATTRIBUTES`): a parameter of the
abstract type, at least one byte. -/
class ElementBytes (α : Type) where
  sizeofBytes : Nat
  sizeofBytes_pos : 0 < sizeofBytes

/-- Value of `sizeof(unsigned)`, the size of one index (`DXGI_FORMAT_R32_UINT`). -/
def sizeofIndex : Nat := 4

/-! ## Transform compositor -/

/-- Unchecked read `v[i]` with an `int` index: negative or too large is undefined. -/
def readAt {α : Type} (v : List α) (i : Int) : Option α :=
  if 0 ≤ i then v[i.toNat]? else none

/-- Unchecked write `v[i] = x`: outside the vector it is undefined. -/
def writeAt {α : Type} (v : List α) (i : Nat) (x : α) : Option (List α) :=
  if i < v.length then some (v.set i x) else none

/-- Body of the `for` loop of `LinkChildrenToParent` for one object. -/
def linkOne [Mul M] (levelTransforms : List M) (transformsForGPU : List M)
    (o : BLENDER_OBJECT) : Option (List M) :=
  if o.parentTransformIndex ≠ -1 then
    match levelTransforms[o.transformIndex]?,
          readAt transformsForGPU o.parentTransformIndex with
    | some a, some b => writeAt transformsForGPU o.transformIndex (a * b)
    | _, _ => none
  else some transformsForGPU

/-- The loop of `LinkChildrenToParent` over `blenderObjects`, in list order. -/
def linkLoop [Mul M] (levelTransforms : List M) :
    List BLENDER_OBJECT → List M → Option (List M)
  | [], tf => some tf
  | o :: rest, tf =>
    match linkOne levelTransforms tf o with
    | some tf1 => linkLoop levelTransforms rest tf1
    | none => none

/-- Method `Renderer::LinkChildrenToParent`: the loop run on the renderer's level
tables and working array. -/
def LinkChildrenToParent [Mul M] (r : Renderer M V A P) : Option (Renderer M V A P) :=
  match linkLoop r.levelHandle.levelTransforms r.levelHandle.blenderObjects
      r.transformsForGPU with
  | some tf => some { r with transformsForGPU := tf }
  | none => none

/-! ## Loops and buffers -/

/-- The counted loop `for (i = lo; n iterations; i++) s = body i s`, stopping at the
first undefined step. -/
def forFrom {σ : Type} (body : Nat → σ → Option σ) : Nat → Nat → σ → Option σ
  | _, 0, s => some s
  | lo, n + 1, s =>
    match body lo s with
    | some s1 => forFrom body (lo + 1) n s1
    | none => none

/-- The loop `for (i = lo; i < hi; i++) s = body i s`. -/
def forLoop {σ : Type} (lo hi : Nat) (body : Nat → σ → Option σ) (s : σ) : Option σ :=
  forFrom body lo (hi - lo) s

/-- The call `memcpy(dst, src, sizeof(T) * src.size())` into a mapped buffer that has
room for `dst.length` elements: the first `src.length` elements are overwritten, the
rest keep their contents; copying more than the buffer holds is undefined. -/
def memcpy {α : Type} (dst src : List α) : Option (List α) :=
  if src.length ≤ dst.length then some (src ++ dst.drop src.length) else none

/-- Method `InitializeSceneDataForGPU`: one `push_back` per level transform. -/
def InitializeSceneDataForGPU (r : Renderer M V A P) : Renderer M V A P :=
  { r with transformsForGPU := r.transformsForGPU ++ r.levelHandle.levelTransforms }

/-- The sequence `CreateCommittedResource` (result discarded), `Map`, `memcpy`: a
buffer of `sizeInBytes` bytes is requested and `copyBytes` bytes of `data`, whose
elements take `elementBytes` bytes each, are copied into it. A zero-byte request is
refused, the pointer stays null and `Map` dereferences it; copying more bytes than
the buffer has is undefined. Otherwise the buffer holds the whole elements that
were copied. -/
def createAndFill {α : Type} (elementBytes sizeInBytes copyBytes : Nat)
    (data : List α) : Option (List α) :=
  if sizeInBytes = 0 then none
  else if sizeInBytes < copyBytes then none
  else some (data.take (copyBytes / elementBytes))

/-- Method `InitializeVertexBuffer`: `CreateVertexBuffer` and `WriteToVertexBuffer`
both receive `sizeof(H2B::VERTEX) * levelVertices.size()` through an `unsigned int`
parameter. -/
def InitializeVertexBuffer [ElementBytes V] (r : Renderer M V A P) :
    Option (Renderer M V A P) :=
  let sizeInBytes := toUINT (ElementBytes.sizeofBytes V * r.levelHandle.levelVertices.length)
  match createAndFill (ElementBytes.sizeofBytes V) sizeInBytes sizeInBytes
      r.levelHandle.levelVertices with
  | some buffer => some { r with
      vertexBuffer := some buffer
      effects := r.effects ++ [Effect.CreateVertexBuffer sizeInBytes] }
  | none => none

/-- Method `InitializeIndexBuffer`: the same for the level indices, with
`sizeof(unsigned)`. -/
def InitializeIndexBuffer (r : Renderer M V A P) : Option (Renderer M V A P) :=
  let sizeInBytes := toUINT (sizeofIndex * r.levelHandle.levelIndices.length)
  match createAndFill sizeofIndex sizeInBytes sizeInBytes r.levelHandle.levelIndices with
  | some buffer => some { r with
      indexBuffer := some buffer
      effects := r.effects ++ [Effect.CreateIndexBuffer sizeInBytes] }
  | none => none

/-- Method `InitializeDescriptorHeap`: a heap of `maxActiveFrames * 2` descriptors,
the count held in a `UINT`; a heap of zero descriptors is refused and the pointer
stays null. The views written into the heap are not part of the state: the shaders
reach the slot buffers through root views bound by address. -/
def InitializeDescriptorHeap (r : Renderer M V A P) : Renderer M V A P :=
  { r with
    descriptorHeap :=
      if toUINT (r.maxActiveFrames * 2) = 0 then none
      else some (toUINT (r.maxActiveFrames * 2)) }

/-- Iteration `i` of the first loop of `InitializeStructuredBuffersAndViews`: a new
resource of `unsigned structureBufferSize` bytes for slot `i`, filled by one
`memcpy` of `sizeof(GMATRIXF) * levelTransforms.size()` bytes. -/
def initTransformSlot [ElementBytes M] (i : Nat) (r : Renderer M V A P) :
    Option (Renderer M V A P) :=
  let structureBufferSize :=
    toUINT (ElementBytes.sizeofBytes M * r.levelHandle.levelTransforms.length)
  match createAndFill (ElementBytes.sizeofBytes M) structureBufferSize
      (ElementBytes.sizeofBytes M * r.levelHandle.levelTransforms.length)
      r.levelHandle.levelTransforms with
  | some buffer =>
    match writeAt r.transformStructuredBuffer i (some buffer) with
    | some b => some { r with
        transformStructuredBuffer := b
        effects := r.effects ++ [Effect.CreateTransformBuffer i structureBufferSize] }
    | none => none
  | none => none

/-- Iteration `i` of the second loop: a new resource of `unsigned
structureBufferSize` bytes for slot `i`, filled record by record with
`levelMaterials[j].attrib`, `sizeof(H2B::ATTRIBUTES)` bytes each. -/
def initMaterialSlot [ElementBytes A] (i : Nat) (r : Renderer M V A P) :
    Option (Renderer M V A P) :=
  let structureBufferSize :=
    toUINT (ElementBytes.sizeofBytes A * r.levelHandle.levelMaterials.length)
  match createAndFill (ElementBytes.sizeofBytes A) structureBufferSize
      (ElementBytes.sizeofBytes A * r.levelHandle.levelMaterials.length)
      (r.levelHandle.levelMaterials.map (fun m => m.attrib)) with
  | some buffer =>
    match writeAt r.materialStructuredBuffer i (some buffer) with
    | some b => some { r with
        materialStructuredBuffer := b
        effects := r.effects ++ [Effect.CreateMaterialBuffer i structureBufferSize] }
    | none => none
  | none => none

/-- Method `InitializeStructuredBuffersAndViews`: it first dereferences the
descriptor heap, then runs the transform loop and the material loop, each over the
slots `0 .. maxActiveFrames - 1`. Every iteration of either loop writes one view into
the heap, `maxActiveFrames * 2` views in all; writing past the end of the heap is
undefined. -/
def InitializeStructuredBuffersAndViews [ElementBytes M] [ElementBytes A]
    (r : Renderer M V A P) : Option (Renderer M V A P) :=
  match r.descriptorHeap with
  | some numberOfDescriptors =>
    if numberOfDescriptors < r.maxActiveFrames * 2 then none
    else
      match forLoop 0 r.maxActiveFrames initTransformSlot r with
      | some r1 => forLoop 0 r1.maxActiveFrames initMaterialSlot r1
      | none => none
  | none => none

/-- Method `InitializeGraphicsPipeline`: a failed compilation of either shader
prints the errors and calls `abort()`. The root signature and the pipeline state
object are not part of the state. -/
def InitializeGraphicsPipeline (vertexShaderCompiles pixelShaderCompiles : Bool)
    (r : Renderer M V A P) : Option (Renderer M V A P) :=
  if vertexShaderCompiles then
    if pixelShaderCompiles then some r else none
  else none

/-- Method `InitializeGraphics`: vertex buffer, index buffer, both vectors of slots
resized to `maxActiveFrames` null pointers, descriptor heap, structured buffers,
graphics pipeline. -/
def InitializeGraphics [ElementBytes M] [ElementBytes V] [ElementBytes A]
    (vertexShaderCompiles pixelShaderCompiles : Bool) (r : Renderer M V A P) :
    Option (Renderer M V A P) :=
  match InitializeVertexBuffer r with
  | some r1 =>
    match InitializeIndexBuffer r1 with
    | some r2 =>
      match InitializeStructuredBuffersAndViews (InitializeDescriptorHeap
          { r2 with
            transformStructuredBuffer :=
              r2.transformStructuredBuffer.take r2.maxActiveFrames ++
                List.replicate (r2.maxActiveFrames - r2.transformStructuredBuffer.length)
                  none
            materialStructuredBuffer :=
              r2.materialStructuredBuffer.take r2.maxActiveFrames ++
                List.replicate (r2.maxActiveFrames - r2.materialStructuredBuffer.length)
                  none }) with
      | some r3 => InitializeGraphicsPipeline vertexShaderCompiles pixelShaderCompiles r3
      | none => none
    | none => none
  | none => none

/-- The constructor `Renderer::Renderer`; `BufferCount` is the swap chain's buffer
count, the two flags say whether the vertex and the pixel shader compile. It reads
`levelTransforms[26]` (the dog) before anything is built. -/
def Renderer.ctor [ElementBytes M] [ElementBytes V] [ElementBytes A]
    (_handle : Level_Data M V A) (BufferCount : Nat)
    (vertexShaderCompiles pixelShaderCompiles : Bool) : Option (Renderer M V A P) :=
  match _handle.levelTransforms[26]? with
  | some _dogTransform =>
    InitializeGraphics vertexShaderCompiles pixelShaderCompiles
      (InitializeSceneDataForGPU
        { levelHandle := _handle
          transformsForGPU := []
          maxActiveFrames := BufferCount
          vertexBuffer := none
          indexBuffer := none
          transformStructuredBuffer := []
          materialStructuredBuffer := []
          descriptorHeap := none
          meshDataForGPU := { materialIndex := 0, transformIndexStart := 0 }
          level1 := true
          level2 := false
          gameLevelPaths := []
          levelModelPaths := []
          effects := [] })
  | none => none

/-- Method `UpdateTransformsForGPU`: one `memcpy` of the whole working array into the
transform buffer of slot `curFrameBufferIndex`. -/
def UpdateTransformsForGPU (r : Renderer M V A P) (curFrameBufferIndex : Nat) :
    Option (Renderer M V A P) :=
  match r.transformStructuredBuffer[curFrameBufferIndex]? with
  | some (some buffer) =>
    match memcpy buffer r.transformsForGPU with
    | some written => some { r with
        transformStructuredBuffer :=
          r.transformStructuredBuffer.set curFrameBufferIndex (some written) }
    | none => none
  | _ => none

/-! ## Level swap -/

/-- Iteration `i` of the loop that resets both buffers of every slot. -/
def resetSlot (i : Nat) (r : Renderer M V A P) : Option (Renderer M V A P) :=
  match writeAt r.transformStructuredBuffer i none,
        writeAt r.materialStructuredBuffer i none with
  | some t, some m => some { r with
      transformStructuredBuffer := t, materialStructuredBuffer := m }
  | _, _ => none

/-- The body shared, word for word, by the two branches of `HandleLevelSwapping`;
`path` is the index used for `gameLevelPaths` and `levelModelPaths`
(`0` in the first branch, `1` in the second). -/
def swapLevel [ElementBytes M] [ElementBytes V] [ElementBytes A]
    (loader : LevelLoader M V A P) (path : Nat) (r : Renderer M V A P) :
    Option (Renderer M V A P) :=
  let r1 := { r with
    levelHandle := loader.UnloadLevel r.levelHandle
    effects := r.effects ++ [Effect.UnloadLevel] }
  match r1.gameLevelPaths[path]?, r1.levelModelPaths[path]? with
  | some gamePath, some modelPath =>
    let r2 := { r1 with
      levelHandle := (loader.LoadLevel gamePath modelPath r1.levelHandle).1
      effects := r1.effects ++ [Effect.LoadLevel gamePath modelPath] }
    let r3 := { r2 with
      level1 := !r2.level1
      level2 := !r2.level2
      effects := r2.effects ++ [Effect.Log_SwitchedLevels] }
    let r4 := { r3 with
      vertexBuffer := none
      indexBuffer := none
      effects := r3.effects ++ [Effect.ResetBuffers] }
    match forLoop 0 r4.maxActiveFrames resetSlot r4 with
    | some r5 =>
      match InitializeVertexBuffer r5 with
      | some r6 =>
        match InitializeIndexBuffer r6 with
        | some r7 => InitializeStructuredBuffersAndViews r7
        | none => none
      | none => none
    | none => none
  | _, _ => none

/-- Method `HandleLevelSwapping`; a key state is passed as the outcome of its test
`KeyState != 0`. -/
def HandleLevelSwapping [ElementBytes M] [ElementBytes V] [ElementBytes A]
    (loader : LevelLoader M V A P) (r : Renderer M V A P)
    (KeyState1 keyState2 : Bool) : Option (Renderer M V A P) :=
  if KeyState1 && !r.level1 then swapLevel loader 0 r
  else if keyState2 && !r.level2 then swapLevel loader 1 r
  else some r

/-! ## Frame submission -/

/-- What a root-constant block holds: the scene block or a per-draw `MESH_DATA`. -/
inductive RootData where
  | sceneData
  | meshData (d : MESH_DATA)
  deriving DecidableEq, Repr

/-- Buffers that can be bound as a root shader resource view. -/
inductive FrameBuffer where
  | transforms (slot : Nat)
  | materials (slot : Nat)
  deriving DecidableEq, Repr

/-- The command-list calls that `Render` records. -/
inductive Command where
  | SetGraphicsRootSignature
  | SetDescriptorHeaps
  | OMSetRenderTargets
  | SetPipelineState
  | IASetVertexBuffers
  | IASetIndexBuffer
  | IASetPrimitiveTopology
  | SetGraphicsRoot32BitConstants (RootParameterIndex Num32BitValues : Nat)
      (data : RootData)
  | SetGraphicsRootShaderResourceView (RootParameterIndex : Nat) (buffer : FrameBuffer)
  | DrawIndexedInstanced (IndexCountPerInstance InstanceCount StartIndexLocation : Nat)
      (BaseVertexLocation : Int) (StartInstanceLocation : Nat)
  deriving DecidableEq, Repr

/-- Method `SetUpPipeline`: the seven state-setting calls, in order. -/
def SetUpPipeline : List Command :=
  [Command.SetGraphicsRootSignature, Command.SetDescriptorHeaps,
   Command.OMSetRenderTargets, Command.SetPipelineState, Command.IASetVertexBuffers,
   Command.IASetIndexBuffer, Command.IASetPrimitiveTopology]

/-- Body of the inner loop of `Render` for mesh index `mesh`: the state is the
member `meshDataForGPU` and the commands recorded so far. The members of
`MESH_DATA` are `unsigned`, the arguments of `DrawIndexedInstanced` are `UINT`
except the base vertex, an `INT`. -/
def drawMesh (lvl : Level_Data M V A) (inst : MODEL_INSTANCES) (model : LEVEL_MODEL)
    (mesh : Nat) (s : MESH_DATA × List Command) : Option (MESH_DATA × List Command) :=
  let meshDataForGPU : MESH_DATA :=
    { materialIndex := toUINT mesh, transformIndexStart := toUINT inst.transformStart }
  match lvl.levelMeshes[mesh]? with
  | some m =>
    some (meshDataForGPU,
      s.2 ++ [Command.SetGraphicsRoot32BitConstants 1 2 (RootData.meshData meshDataForGPU),
        Command.DrawIndexedInstanced (toUINT m.drawInfo.indexCount)
          (toUINT inst.transformCount)
          (toUINT (model.indexStart + m.drawInfo.indexOffset))
          (toINT model.vertexStart) 0])
  | none => none

/-- Body of the outer loop of `Render` for one instance. The model index is read
into an `int` before it indexes `levelModels`. The counter `mesh` of the inner loop
is an `int` that starts at the unsigned `meshStart` and is compared, as an unsigned
value, with the unsigned sum `meshStart + meshCount`: the loop is not entered when
the start is not below the sum reduced modulo `2^32`; when it is entered and the sum
exceeds `INT_MAX`, the counter is negative when it indexes `levelMeshes` or
overflows on its way up, both undefined. -/
def drawInstance (lvl : Level_Data M V A) (inst : MODEL_INSTANCES)
    (s : MESH_DATA × List Command) : Option (MESH_DATA × List Command) :=
  match readAt lvl.levelModels (toINT inst.modelIndex) with
  | some model =>
    if toUINT model.meshStart < toUINT (model.meshStart + model.meshCount) then
      if toUINT (model.meshStart + model.meshCount) ≤ INT_MAX then
        forLoop (toUINT model.meshStart) (toUINT (model.meshStart + model.meshCount))
          (drawMesh lvl inst model) s
      else none
    else some s
  | none => none

/-- The outer loop of `Render` over `levelInstances`, in list order. -/
def drawLoop (lvl : Level_Data M V A) :
    List MODEL_INSTANCES → MESH_DATA × List Command → Option (MESH_DATA × List Command)
  | [], s => some s
  | inst :: rest, s =>
    match drawInstance lvl inst s with
    | some s1 => drawLoop lvl rest s1
    | none => none

/-- The part of `Render` before the draw loops: level swap, pipeline set-up, the
write of the current slot and the three frame-level root bindings. `curFrame` is
the swap chain's current buffer index. -/
def beginFrame [ElementBytes M] [ElementBytes V] [ElementBytes A]
    (loader : LevelLoader M V A P) (r : Renderer M V A P)
    (KeyState1 keyState2 : Bool) (curFrame : Nat) :
    Option (Renderer M V A P × List Command) :=
  match HandleLevelSwapping loader r KeyState1 keyState2 with
  | some r1 =>
    match UpdateTransformsForGPU r1 curFrame with
    | some r2 =>
      match r2.materialStructuredBuffer[curFrame]? with
      | some (some _) =>
        some (r2, SetUpPipeline ++
          [Command.SetGraphicsRoot32BitConstants 0 32 RootData.sceneData,
           Command.SetGraphicsRootShaderResourceView 2 (FrameBuffer.transforms curFrame),
           Command.SetGraphicsRootShaderResourceView 3 (FrameBuffer.materials curFrame)])
      | _ => none
    | none => none
  | none => none

/-- Method `Renderer::Render`: the renderer after the frame and the recorded
commands. `HandleAudio` only talks to the audio collaborators and is left out. -/
def Render [ElementBytes M] [ElementBytes V] [ElementBytes A]
    (loader : LevelLoader M V A P) (r : Renderer M V A P)
    (KeyState1 keyState2 : Bool) (curFrame : Nat) :
    Option (Renderer M V A P × List Command) :=
  match beginFrame loader r KeyState1 keyState2 curFrame with
  | some (r1, commands) =>
    match drawLoop r1.levelHandle r1.levelHandle.levelInstances
        (r1.meshDataForGPU, commands) with
    | some (meshData, recorded) => some ({ r1 with meshDataForGPU := meshData }, recorded)
    | none => none
  | none => none

/-! ## Scene-graph predicates -/

/-- An object takes part in the composition when it declares a parent. -/
def hasParent (o : BLENDER_OBJECT) : Prop := o.parentTransformIndex ≠ -1

instance (o : BLENDER_OBJECT) : Decidable (hasParent o) := by
  unfold hasParent; infer_instance

/-- Index validity of the parent table: every transform index and every declared
parent index points inside `levelTransforms`. -/
def ParentTableIndexValid (lvl : Level_Data M V A) : Prop :=
  ∀ o ∈ lvl.blenderObjects, o.transformIndex < lvl.levelTransforms.length ∧
    (hasParent o → 0 ≤ o.parentTransformIndex ∧
      o.parentTransformIndex.toNat < lvl.levelTransforms.length)

/-- Acyclicity of the parent table: the transforms can be ranked so that every
parent link goes to a strictly smaller rank. -/
def ParentTableAcyclic (objs : List BLENDER_OBJECT) : Prop :=
  ∃ rank : Nat → Nat, ∀ o ∈ objs, hasParent o →
    rank o.parentTransformIndex.toNat < rank o.transformIndex

/-- The objects have pairwise distinct transform indices. -/
def DistinctTransformIndices (objs : List BLENDER_OBJECT) : Prop :=
  (objs.map (fun o => o.transformIndex)).Nodup

/-- Processing order: no child is listed before an object that owns the child's
parent transform and is itself a child (such a parent is rewritten by the pass). -/
def ParentsListedFirst (objs : List BLENDER_OBJECT) : Prop :=
  objs.Pairwise (fun a b => hasParent a → hasParent b →
    a.parentTransformIndex ≠ (b.transformIndex : Int))

/-- The composition result for a working array `tf`: every object with a parent
holds `local * tf[parent]`, every parentless object holds its local transform. -/
def ComposedWithParents [Mul M] (lvl : Level_Data M V A) (tf : List M) : Prop :=
  ∀ o ∈ lvl.blenderObjects,
    (hasParent o → ∃ a b, lvl.levelTransforms[o.transformIndex]? = some a ∧
      readAt tf o.parentTransformIndex = some b ∧
      tf[o.transformIndex]? = some (a * b)) ∧
    (¬ hasParent o → ∃ a, lvl.levelTransforms[o.transformIndex]? = some a ∧
      tf[o.transformIndex]? = some a)

/-- Every GPU buffer built from the level can be created and filled: no table is
empty and every byte size is below `2^32`. -/
def BufferTablesFit [ElementBytes M] [ElementBytes V] [ElementBytes A]
    (lvl : Level_Data M V A) : Prop :=
  (0 < lvl.levelVertices.length ∧
    ElementBytes.sizeofBytes V * lvl.levelVertices.length < UINT_RANGE) ∧
  (0 < lvl.levelIndices.length ∧ sizeofIndex * lvl.levelIndices.length < UINT_RANGE) ∧
  (0 < lvl.levelTransforms.length ∧
    ElementBytes.sizeofBytes M * lvl.levelTransforms.length < UINT_RANGE) ∧
  (0 < lvl.levelMaterials.length ∧
    ElementBytes.sizeofBytes A * lvl.levelMaterials.length < UINT_RANGE)

/-! ## Concrete scenes and renderer states -/

/-- In the concrete scenes matrices, vertices and attribute records are natural
numbers standing for records of 64 bytes. -/
instance : ElementBytes Nat := ⟨64, by decide⟩

/-- A renderer over `lvl` with working array `tf`, `frames` slots whose buffers hold
the level's transforms and materials, a descriptor heap of `frames * 2` descriptors,
and level 1 active. -/
def rendererOver (lvl : Level_Data M V A) (tf : List M) (frames : Nat) :
    Renderer M V A P :=
  { levelHandle := lvl
    transformsForGPU := tf
    maxActiveFrames := frames
    vertexBuffer := some lvl.levelVertices
    indexBuffer := some lvl.levelIndices
    transformStructuredBuffer := List.replicate frames (some lvl.levelTransforms)
    materialStructuredBuffer :=
      List.replicate frames (some (lvl.levelMaterials.map (fun m => m.attrib)))
    descriptorHeap := some (frames * 2)
    meshDataForGPU := { materialIndex := 0, transformIndexStart := 0 }
    level1 := true
    level2 := false
    gameLevelPaths := []
    levelModelPaths := []
    effects := [] }

/-- A three-object chain (root 0, child 1, grandchild 2) over the transforms
`[2, 3, 5]` of the multiplicative monoid of naturals, listed with the given
objects; no geometry. -/
def chainScene (objs : List BLENDER_OBJECT) : Level_Data Nat Nat Nat :=
  { levelVertices := []
    levelIndices := []
    levelTransforms := [2, 3, 5]
    levelMaterials := []
    levelMeshes := []
    levelModels := []
    levelInstances := []
    blenderObjects := objs }

/-- The chain listed grandchild first. -/
def chainChildFirst : Level_Data Nat Nat Nat :=
  chainScene [⟨2, 1⟩, ⟨1, 0⟩, ⟨0, -1⟩]

/-- The chain listed root first. -/
def chainParentFirst : Level_Data Nat Nat Nat :=
  chainScene [⟨0, -1⟩, ⟨1, 0⟩, ⟨2, 1⟩]

/-! ## Frame-submission predicates -/

/-- Recognises a `DrawIndexedInstanced` call. -/
def isDraw : Command → Bool
  | Command.DrawIndexedInstanced _ _ _ _ _ => true
  | _ => false

/-- The draw calls of a command stream, in order. -/
def drawCalls (commands : List Command) : List Command := commands.filter isDraw

/-- The table entry `levelModels[inst.modelIndex]` (a zero record outside the table). -/
def modelOf (lvl : Level_Data M V A) (inst : MODEL_INSTANCES) : LEVEL_MODEL :=
  lvl.levelModels.getD inst.modelIndex ⟨0, 0, 0, 0⟩

/-- The table entry `levelMeshes[m]` (a zero record outside the table). -/
def meshAt (lvl : Level_Data M V A) (m : Nat) : MESH :=
  lvl.levelMeshes.getD m ⟨⟨0, 0⟩, 0⟩

/-- Every index the draw loops dereference lies inside its table and fits the `int`
that carries it: each instance's `modelIndex` is valid and at most `INT_MAX`, the
sum `meshStart + meshCount` of its model is at most `INT_MAX`, and every mesh index
from `meshStart` to `meshStart + meshCount - 1` lies inside `levelMeshes`. -/
def DrawTablesValid (lvl : Level_Data M V A) : Prop :=
  ∀ inst ∈ lvl.levelInstances, inst.modelIndex < lvl.levelModels.length ∧
    inst.modelIndex ≤ INT_MAX ∧
    (modelOf lvl inst).meshStart + (modelOf lvl inst).meshCount ≤ INT_MAX ∧
    ∀ m, (modelOf lvl inst).meshStart ≤ m →
      m < (modelOf lvl inst).meshStart + (modelOf lvl inst).meshCount →
      m < lvl.levelMeshes.length

/-- The draw call for mesh `m` of an instance as the device receives it: index count
of the mesh, instance count of the instance and start index `indexStart +
indexOffset`, each reduced to a 32-bit `UINT`, the model's base vertex as a 32-bit
`INT`, start instance 0. -/
def drawOf (lvl : Level_Data M V A) (inst : MODEL_INSTANCES) (m : Nat) : Command :=
  Command.DrawIndexedInstanced (toUINT (meshAt lvl m).drawInfo.indexCount)
    (toUINT inst.transformCount)
    (toUINT ((modelOf lvl inst).indexStart + (meshAt lvl m).drawInfo.indexOffset))
    (toINT (modelOf lvl inst).vertexStart) 0

/-- The draw call for mesh `m` of an instance with the arguments taken as exact
integers: start index `indexStart + indexOffset` without reduction, base vertex
`vertexStart`. -/
def drawOfExact (lvl : Level_Data M V A) (inst : MODEL_INSTANCES) (m : Nat) : Command :=
  Command.DrawIndexedInstanced (meshAt lvl m).drawInfo.indexCount inst.transformCount
    ((modelOf lvl inst).indexStart + (meshAt lvl m).drawInfo.indexOffset)
    ((modelOf lvl inst).vertexStart : Int) 0

/-- Instance-major, mesh-minor draw sequence with exact integer arguments. -/
def instanceMajorDrawsExact (lvl : Level_Data M V A) : List Command :=
  lvl.levelInstances.flatMap (fun inst =>
    (List.range' (modelOf lvl inst).meshStart (modelOf lvl inst).meshCount).map
      (drawOfExact lvl inst))

/-- Instance-major, mesh-minor draw sequence: for each instance in list order, one
draw per mesh index from `meshStart` to `meshStart + meshCount - 1`, ascending. -/
def instanceMajorDraws (lvl : Level_Data M V A) : List Command :=
  lvl.levelInstances.flatMap (fun inst =>
    (List.range' (modelOf lvl inst).meshStart (modelOf lvl inst).meshCount).map
      (drawOf lvl inst))

/-- The per-draw command pairs: for each instance and each of its mesh indices `m`,
the constant block `(materialOf m, inst.transformStart)`, both members reduced to
32-bit unsigned values, bound to root parameter 1 and immediately followed by the
draw of mesh `m`. -/
def perDrawCommands (materialOf : Nat → Nat) (lvl : Level_Data M V A) : List Command :=
  lvl.levelInstances.flatMap (fun inst =>
    (List.range' (modelOf lvl inst).meshStart (modelOf lvl inst).meshCount).flatMap
      (fun m =>
        [Command.SetGraphicsRoot32BitConstants 1 2
           (RootData.meshData
             { materialIndex := toUINT (materialOf m)
               transformIndexStart := toUINT inst.transformStart }),
         drawOf lvl inst m]))

/-- The commands `Render` records before its draw loops, for frame slot `curFrame`. -/
def framePrelude (curFrame : Nat) : List Command :=
  SetUpPipeline ++
    [Command.SetGraphicsRoot32BitConstants 0 32 RootData.sceneData,
     Command.SetGraphicsRootShaderResourceView 2 (FrameBuffer.transforms curFrame),
     Command.SetGraphicsRootShaderResourceView 3 (FrameBuffer.materials curFrame)]

/-- A scene with one model of three meshes (the last two sharing material 1), placed
by two instances; transforms are naturals under multiplication. -/
def twoInstanceScene : Level_Data Nat Nat Nat :=
  { levelVertices := [10, 11, 12, 13]
    levelIndices := [0, 1, 2, 2, 1, 3, 0, 2, 3]
    levelTransforms := [2, 3]
    levelMaterials := [⟨7⟩, ⟨8⟩]
    levelMeshes := [⟨⟨3, 0⟩, 0⟩, ⟨⟨3, 3⟩, 1⟩, ⟨⟨3, 6⟩, 1⟩]
    levelModels := [⟨0, 0, 0, 3⟩]
    levelInstances := [⟨0, 0, 1⟩, ⟨0, 1, 1⟩]
    blenderObjects := [⟨0, -1⟩, ⟨1, -1⟩] }

/-- A level loader that always fails: unloading empties the tables, loading leaves
them as they are and reports failure. -/
def failingLoader : LevelLoader Nat Nat Nat Nat :=
  { UnloadLevel := fun _ =>
      { levelVertices := [], levelIndices := [], levelTransforms := [],
        levelMaterials := [], levelMeshes := [], levelModels := [],
        levelInstances := [], blenderObjects := [] }
    LoadLevel := fun _ _ lvl => (lvl, false) }

/-- Repetition: `HandleLevelSwapping` called `n` times in a row with the same key
states. -/
def pressRepeatedly [ElementBytes M] [ElementBytes V] [ElementBytes A]
    (loader : LevelLoader M V A P) (KeyState1 keyState2 : Bool) :
    Nat → Renderer M V A P → Option (Renderer M V A P)
  | 0, r => some r
  | n + 1, r =>
    match HandleLevelSwapping loader r KeyState1 keyState2 with
    | some r1 => pressRepeatedly loader KeyState1 keyState2 n r1
    | none => none

/-- A second level, with three transforms and its own geometry and materials. -/
def threeTransformScene : Level_Data Nat Nat Nat :=
  { levelVertices := [20, 21, 22]
    levelIndices := [0, 1, 2]
    levelTransforms := [5, 7, 11]
    levelMaterials := [⟨9⟩]
    levelMeshes := [⟨⟨3, 0⟩, 0⟩]
    levelModels := [⟨0, 0, 0, 1⟩]
    levelInstances := [⟨0, 0, 3⟩]
    blenderObjects := [⟨0, -1⟩, ⟨1, 0⟩, ⟨2, 0⟩] }

/-- The tables of an unloaded level. -/
def emptyLevel : Level_Data Nat Nat Nat :=
  { levelVertices := [], levelIndices := [], levelTransforms := [],
    levelMaterials := [], levelMeshes := [], levelModels := [],
    levelInstances := [], blenderObjects := [] }

/-- A loader that knows two level files: path `1` holds `twoInstanceScene`, path
`2` holds `threeTransformScene`; any other path fails and leaves the (unloaded)
tables as they are. Unloading empties the tables. -/
def twoLevelLoader : LevelLoader Nat Nat Nat Nat :=
  { UnloadLevel := fun _ => emptyLevel
    LoadLevel := fun gamePath _ current =>
      if gamePath = 1 then (twoInstanceScene, true)
      else if gamePath = 2 then (threeTransformScene, true)
      else (current, false) }

/-- The renderer showing `twoInstanceScene` as level 1 with three frame slots, the
level paths registered as `first` and `second`. -/
def playingLevelOne (first second : Nat) : Renderer Nat Nat Nat Nat :=
  { rendererOver twoInstanceScene [2, 3] 3 with
    gameLevelPaths := [first, second]
    levelModelPaths := [first, second] }

/-- A frame ring of three slots with distinguishable contents and the working
array `[2, 3]`. -/
def ringOfThree : Renderer Nat Nat Nat Nat :=
  { rendererOver twoInstanceScene [2, 3] 3 with
    transformStructuredBuffer := [some [1, 1], some [4, 4], some [9, 9]] }

/-- A scene of 27 unit transforms whose only object names itself as its parent. -/
def selfParentScene : Level_Data Nat Nat Nat :=
  { levelVertices := [10, 11, 12]
    levelIndices := [0, 1, 2]
    levelTransforms := List.replicate 27 1
    levelMaterials := [⟨7⟩]
    levelMeshes := [⟨⟨3, 0⟩, 0⟩]
    levelModels := [⟨0, 0, 0, 1⟩]
    levelInstances := [⟨0, 0, 1⟩]
    blenderObjects := [⟨0, 0⟩] }

/-- Authoring order: every object with a parent is listed after an object whose
transform index is the parent index. -/
def ParentObjectListedBefore (objs : List BLENDER_OBJECT) : Prop :=
  ∀ (i : Nat) (o : BLENDER_OBJECT), objs[i]? = some o → hasParent o →
    ∃ (j : Nat) (q : BLENDER_OBJECT), j < i ∧ objs[j]? = some q ∧
      (q.transformIndex : Int) = o.parentTransformIndex

/-! ## Per-frame update -/

/-- Method `RotateObjectY`: `rotateYLocal degrees` stands for
`GMatrix::RotateYLocalF` by the angle `G_DEGREE_TO_RADIAN_F(degrees) * deltaTime` of
the current frame; the rotated matrix is stored back into the object's own slot. -/
def RotateObjectY (rotateYLocal : Int → M → M) (r : Renderer M V A P)
    (blenderObjIndex : Nat) (degrees : Int) : Option (Renderer M V A P) :=
  match r.levelHandle.blenderObjects[blenderObjIndex]? with
  | some o =>
    match r.transformsForGPU[o.transformIndex]? with
    | some m =>
      match writeAt r.transformsForGPU o.transformIndex (rotateYLocal degrees m) with
      | some tf => some { r with transformsForGPU := tf }
      | none => none
    | none => none
  | none => none

/-- Method `Renderer::Update`: after the camera, projection and audio-listener
updates (floating point, left out of the state) it rotates object 31 and runs
`LinkChildrenToParent`. -/
def Update [Mul M] (rotateYLocal : Int → M → M) (r : Renderer M V A P) :
    Option (Renderer M V A P) :=
  match RotateObjectY rotateYLocal r 31 90 with
  | some r1 => LinkChildrenToParent r1
  | none => none

/-- The local-or-animated transform of the object at position `i` for one `Update`
pass started in `r`: the result of `RotateObjectY` for object 31, the load-time
local transform otherwise. -/
def localOrAnimated (rotateYLocal : Int → M → M) (r : Renderer M V A P) (i : Nat)
    (o : BLENDER_OBJECT) : Option M :=
  if i = 31 then (r.transformsForGPU[o.transformIndex]?).map (rotateYLocal 90)
  else r.levelHandle.levelTransforms[o.transformIndex]?

/-- Objects `0 .. n - 1` without a parent, in order, followed by object `n` whose
parent is the transform `p`; object `i` owns transform `i`. -/
def rootsThenChild (n : Nat) (p : Int) : List BLENDER_OBJECT :=
  (List.range n).map (fun i => ⟨i, -1⟩) ++ [⟨n, p⟩]

/-- A scene of 32 objects over 32 transforms, all equal to 2: objects 0 to 30 have
no parent, the animated object 31 is a child of object 0. -/
def animatedChildScene : Level_Data Nat Nat Nat :=
  { levelVertices := [10, 11, 12]
    levelIndices := [0, 1, 2]
    levelTransforms := List.replicate 32 2
    levelMaterials := [⟨7⟩]
    levelMeshes := [⟨⟨3, 0⟩, 0⟩]
    levelModels := [⟨0, 0, 0, 1⟩]
    levelInstances := [⟨0, 0, 32⟩]
    blenderObjects := rootsThenChild 31 0 }

/-- A scene of 33 objects over 33 transforms, all equal to 2: objects 0 to 31 have
no parent, among them the animated object 31, and object 32 is a child of the
animated object. -/
def animatedParentScene : Level_Data Nat Nat Nat :=
  { levelVertices := [10, 11, 12]
    levelIndices := [0, 1, 2]
    levelTransforms := List.replicate 33 2
    levelMaterials := [⟨7⟩]
    levelMeshes := [⟨⟨3, 0⟩, 0⟩]
    levelModels := [⟨0, 0, 0, 1⟩]
    levelInstances := [⟨0, 0, 33⟩]
    blenderObjects := rootsThenChild 32 31 }

/-- A stand-in for the frame's rotation on natural-number transforms: multiply by 3
on the left. -/
def tripleRotation : Int → Nat → Nat := fun _ m => 3 * m

/-- The caller's registration of the level files in the public members
`gameLevelPaths` and `levelModelPaths` after construction. -/
def withLevelPaths (r : Renderer M V A P) (game model : List P) : Renderer M V A P :=
  { r with gameLevelPaths := game, levelModelPaths := model }

/-- A first level with 27 transforms, all equal to 2, and one parentless object. -/
def largeScene : Level_Data Nat Nat Nat :=
  { levelVertices := [10, 11, 12]
    levelIndices := [0, 1, 2]
    levelTransforms := List.replicate 27 2
    levelMaterials := [⟨7⟩]
    levelMeshes := [⟨⟨3, 0⟩, 0⟩]
    levelModels := [⟨0, 0, 0, 1⟩]
    levelInstances := [⟨0, 0, 27⟩]
    blenderObjects := [⟨0, -1⟩] }

/-- A loader whose path `1` holds `largeScene` and whose path `2` holds
`threeTransformScene`; any other path fails. Unloading empties the tables. -/
def largeThenSmallLoader : LevelLoader Nat Nat Nat Nat :=
  { UnloadLevel := fun _ => emptyLevel
    LoadLevel := fun gamePath _ current =>
      if gamePath = 1 then (largeScene, true)
      else if gamePath = 2 then (threeTransformScene, true)
      else (current, false) }

/-- A scene whose only model claims three meshes from mesh index 1 on, over a mesh
table of three entries: the model index of the instance is valid, mesh index 3 is
not. -/
def shortMeshTableScene : Level_Data Nat Nat Nat :=
  { twoInstanceScene with
    levelModels := [⟨0, 0, 1, 3⟩]
    levelInstances := [⟨0, 0, 1⟩] }

/-- A scene whose only model claims two meshes from mesh index `2^32 - 1` on: the
unsigned sum `meshStart + meshCount` wraps to 1. -/
def wrappingMeshRangeScene : Level_Data Nat Nat Nat :=
  { twoInstanceScene with
    levelModels := [⟨0, 0, 4294967295, 2⟩]
    levelInstances := [⟨0, 0, 1⟩] }

/-- A scene whose only model starts its indices at `2^32 - 1` and whose only mesh
has index offset 1. -/
def wrappingIndexScene : Level_Data Nat Nat Nat :=
  { twoInstanceScene with
    levelMeshes := [⟨⟨3, 1⟩, 0⟩]
    levelModels := [⟨0, 4294967295, 0, 1⟩]
    levelInstances := [⟨0, 0, 1⟩] }

/-- Tables of a level without any material. -/
def noMaterialScene : Level_Data Nat Nat Nat :=
  { threeTransformScene with levelMaterials := [] }

/-- Tables of a level with `2^30 + 1` indices, all zero, so that the byte size of
the index table is `2^32 + 4`. -/
def manyIndexScene : Level_Data Nat Nat Nat :=
  { threeTransformScene with levelIndices := List.replicate 1073741825 0 }

/-- A loader whose path `3` holds `noMaterialScene` and whose path `4` holds
`manyIndexScene`, both loading successfully; any other path fails. Unloading
empties the tables. -/
def oddLevelsLoader : LevelLoader Nat Nat Nat Nat :=
  { UnloadLevel := fun _ => emptyLevel
    LoadLevel := fun gamePath _ current =>
      if gamePath = 3 then (noMaterialScene, true)
      else if gamePath = 4 then (manyIndexScene, true)
      else (current, false) }

/-- A loader that knows the level file at path `1` (`largeScene`) only. Path `8` is
a missing file: the unloaded tables stay as they are. On any other path it gives up
after having read the tables of `threeTransformScene` into the handle. Both report
failure. Unloading empties the tables. -/
def givingUpLoader : LevelLoader Nat Nat Nat Nat :=
  { UnloadLevel := fun _ => emptyLevel
    LoadLevel := fun gamePath _ current =>
      if gamePath = 1 then (largeScene, true)
      else if gamePath = 8 then (current, false)
      else (threeTransformScene, false) }

/-! ## Theorems -/

/-! ### Transform compositor -/

theorem readAt_eq_some {α : Type} {v : List α} {i : Int} (h0 : 0 ≤ i) :
    readAt v i = v[i.toNat]? := by
  simp [readAt, h0]

theorem linkOne_of_noParent [Mul M] (lt tf : List M) (o : BLENDER_OBJECT)
    (h : ¬ hasParent o) : linkOne lt tf o = some tf := by
  unfold hasParent at h
  simp only [linkOne]
  rw [if_neg h]

theorem linkOne_of_hasParent [Mul M] (lt tf : List M) (o : BLENDER_OBJECT)
    (h : hasParent o) {a b : M} (ha : lt[o.transformIndex]? = some a)
    (h0 : 0 ≤ o.parentTransformIndex)
    (hb : tf[o.parentTransformIndex.toNat]? = some b)
    (hlt : o.transformIndex < tf.length) :
    linkOne lt tf o = some (tf.set o.transformIndex (a * b)) := by
  unfold hasParent at h
  simp only [linkOne]
  rw [if_pos h, ha, readAt_eq_some h0, hb]
  simp [writeAt, hlt]

/-- What one pass of the loop establishes when no later iteration writes a slot an
earlier iteration relied on. -/
theorem linkLoop_spec [Mul M] (lt : List M) :
    ∀ (objs : List BLENDER_OBJECT) (tf : List M),
      (∀ o ∈ objs, o.transformIndex < lt.length ∧ o.transformIndex < tf.length ∧
        (hasParent o → 0 ≤ o.parentTransformIndex ∧
          o.parentTransformIndex.toNat < tf.length)) →
      (objs.map (fun o => o.transformIndex)).Nodup →
      (∀ o ∈ objs, o.parentTransformIndex ≠ (o.transformIndex : Int)) →
      objs.Pairwise (fun a b => hasParent a → hasParent b →
        a.parentTransformIndex ≠ (b.transformIndex : Int)) →
      ∃ tf', linkLoop lt objs tf = some tf' ∧ tf'.length = tf.length ∧
        (∀ t, (∀ o ∈ objs, hasParent o → o.transformIndex ≠ t) → tf'[t]? = tf[t]?) ∧
        (∀ o ∈ objs, hasParent o → ∃ a b, lt[o.transformIndex]? = some a ∧
          tf'[o.parentTransformIndex.toNat]? = some b ∧
          tf'[o.transformIndex]? = some (a * b)) := by
  intro objs
  induction objs with
  | nil =>
    intro tf _ _ _ _
    exact ⟨tf, rfl, rfl, fun _ _ => rfl, by simp⟩
  | cons o rest ih =>
    intro tf hvalid hnodup hself horder
    have hvalid_rest : ∀ o' ∈ rest, o'.transformIndex < lt.length ∧
        o'.transformIndex < tf.length ∧
        (hasParent o' → 0 ≤ o'.parentTransformIndex ∧
          o'.parentTransformIndex.toNat < tf.length) :=
      fun o' ho' => hvalid o' (List.mem_cons_of_mem _ ho')
    have hself_rest : ∀ o' ∈ rest, o'.parentTransformIndex ≠ (o'.transformIndex : Int) :=
      fun o' ho' => hself o' (List.mem_cons_of_mem _ ho')
    rw [List.map_cons, List.nodup_cons] at hnodup
    rw [List.pairwise_cons] at horder
    obtain ⟨hfresh, hnodup_rest⟩ := hnodup
    obtain ⟨hord_o, hord_rest⟩ := horder
    by_cases hp : hasParent o
    · obtain ⟨hti, htf, hpar⟩ := hvalid o (List.mem_cons_self _ _)
      obtain ⟨h0, hpn'⟩ := hpar hp
      have ha : lt[o.transformIndex]? = some lt[o.transformIndex] :=
        List.getElem?_eq_getElem hti
      have hb : tf[o.parentTransformIndex.toNat]? = some tf[o.parentTransformIndex.toNat] :=
        List.getElem?_eq_getElem hpn'
      have hstep := linkOne_of_hasParent lt tf o hp ha h0 hb htf
      obtain ⟨tf', hrun, hlen', hkeep, hcomp⟩ :=
        ih (tf.set o.transformIndex (lt[o.transformIndex] * tf[o.parentTransformIndex.toNat]))
          (by simpa using hvalid_rest) hnodup_rest hself_rest hord_rest
      have hne_self : o.transformIndex ≠ o.parentTransformIndex.toNat := by
        intro h
        apply hself o (List.mem_cons_self _ _)
        rw [h, Int.toNat_of_nonneg h0]
      refine ⟨tf', ?_, ?_, ?_, ?_⟩
      · simp only [linkLoop, hstep]
        exact hrun
      · simpa using hlen'
      · intro t ht
        rw [hkeep t (fun o' ho' hp' => ht o' (List.mem_cons_of_mem _ ho') hp')]
        exact List.getElem?_set_ne (ht o (List.mem_cons_self _ _) hp)
      · intro o' ho' hp'
        rcases List.mem_cons.mp ho' with rfl | hmem
        · refine ⟨lt[o'.transformIndex], tf[o'.parentTransformIndex.toNat], ha, ?_, ?_⟩
          · rw [hkeep _ ?_, List.getElem?_set_ne hne_self]
            · exact hb
            · intro o'' ho'' hp'' heq
              apply hord_o o'' ho'' hp hp''
              rw [heq, Int.toNat_of_nonneg h0]
          · rw [hkeep _ ?_, List.getElem?_set_self htf]
            intro o'' ho'' _ heq
            exact hfresh (heq ▸ List.mem_map_of_mem _ ho'')
        · exact hcomp o' hmem hp'
    · obtain ⟨tf', hrun, hlen', hkeep, hcomp⟩ :=
        ih tf hvalid_rest hnodup_rest hself_rest hord_rest
      refine ⟨tf', ?_, hlen', ?_, ?_⟩
      · simp only [linkLoop, linkOne_of_noParent lt tf o hp]
        exact hrun
      · intro t ht
        exact hkeep t (fun o' ho' hp' => ht o' (List.mem_cons_of_mem _ ho') hp')
      · intro o' ho' hp'
        rcases List.mem_cons.mp ho' with rfl | hmem
        · exact absurd hp' hp
        · exact hcomp o' hmem hp'

theorem noSelfParent_of_acyclic {objs : List BLENDER_OBJECT}
    (h : ParentTableAcyclic objs) :
    ∀ o ∈ objs, o.parentTransformIndex ≠ (o.transformIndex : Int) := by
  obtain ⟨rank, hrank⟩ := h
  intro o ho heq
  by_cases hp : hasParent o
  · have := hrank o ho hp
    rw [heq, Int.toNat_ofNat] at this
    exact Nat.lt_irrefl _ this
  · have h0 : (0 : Int) ≤ o.parentTransformIndex := heq ▸ Int.ofNat_nonneg _
    unfold hasParent at hp
    omega

/-- C1, as stated, fails: the chain listed grandchild first is index-valid, acyclic
and has distinct transform indices, the pass starts from the load-time array and
ends with `[2, 6, 15]`, where the grandchild holds `5 * 3` (its parent's stale
value) and not `5 * 6`. -/
theorem LinkChildrenToParent_child_first_stale :
    (rendererOver chainChildFirst [2, 3, 5] 2 : Renderer Nat Nat Nat Nat).transformsForGPU
        = chainChildFirst.levelTransforms ∧
      ParentTableIndexValid chainChildFirst ∧
      ParentTableAcyclic chainChildFirst.blenderObjects ∧
      DistinctTransformIndices chainChildFirst.blenderObjects ∧
      (LinkChildrenToParent
        (rendererOver chainChildFirst [2, 3, 5] 2 : Renderer Nat Nat Nat Nat)).map
          (fun r => r.transformsForGPU) = some [2, 6, 15] ∧
      ¬ ComposedWithParents chainChildFirst [2, 6, 15] := by
  refine ⟨rfl, ?_, ⟨id, ?_⟩, ?_, rfl, ?_⟩
  · intro o ho
    simp [chainChildFirst, chainScene] at ho
    rcases ho with rfl | rfl | rfl <;> simp [hasParent, chainChildFirst, chainScene]
  · intro o ho
    simp [chainChildFirst, chainScene] at ho
    rcases ho with rfl | rfl | rfl <;> simp [hasParent]
  · simp [DistinctTransformIndices, chainChildFirst, chainScene]
  · intro h
    obtain ⟨a, b, ha, hb, hab⟩ :=
      (h ⟨2, 1⟩ (by simp [chainChildFirst, chainScene])).1 (by simp [hasParent])
    simp [chainChildFirst, chainScene, readAt] at ha hb hab
    subst ha hb
    omega

/-- C1, amended: from the load-time working array, for an index-valid, acyclic
parent table with pairwise distinct transform indices in which every parent that is
itself a child is listed before its children, one run of `LinkChildrenToParent`
succeeds and leaves every child equal to `levelTransforms[child] * final
transformsForGPU[parent]` and every parentless object equal to its level
transform. -/
theorem LinkChildrenToParent_composes_parents_first [Mul M] (r : Renderer M V A P)
    (hload : r.transformsForGPU = r.levelHandle.levelTransforms)
    (hvalid : ParentTableIndexValid r.levelHandle)
    (hacyclic : ParentTableAcyclic r.levelHandle.blenderObjects)
    (hdistinct : DistinctTransformIndices r.levelHandle.blenderObjects)
    (horder : ParentsListedFirst r.levelHandle.blenderObjects) :
    ∃ r', LinkChildrenToParent r = some r' ∧
      ComposedWithParents r.levelHandle r'.transformsForGPU := by
  obtain ⟨tf', hrun, _, hkeep, hcomp⟩ :=
    linkLoop_spec r.levelHandle.levelTransforms r.levelHandle.blenderObjects
      r.transformsForGPU
      (fun o ho => ⟨(hvalid o ho).1, hload ▸ (hvalid o ho).1,
        fun hp => ⟨((hvalid o ho).2 hp).1, hload ▸ ((hvalid o ho).2 hp).2⟩⟩)
      hdistinct (noSelfParent_of_acyclic hacyclic) horder
  refine ⟨{ r with transformsForGPU := tf' }, ?_, ?_⟩
  · simp only [LinkChildrenToParent, hrun]
  · intro o ho
    constructor
    · intro hp
      obtain ⟨a, b, ha, hb, hab⟩ := hcomp o ho hp
      exact ⟨a, b, ha, by rw [readAt_eq_some ((hvalid o ho).2 hp).1]; exact hb, hab⟩
    · intro hp
      refine ⟨_, List.getElem?_eq_getElem (hvalid o ho).1, ?_⟩
      show tf'[o.transformIndex]? = _
      rw [hkeep o.transformIndex ?_, hload]
      · exact List.getElem?_eq_getElem (hvalid o ho).1
      · intro o' ho' hp' heq
        have := List.inj_on_of_nodup_map hdistinct ho' ho heq
        exact hp (this ▸ hp')

/-- Witness for the amended C1: the chain listed root first ends with `[2, 6, 30]`. -/
theorem LinkChildrenToParent_composes_parents_first_witness :
    ∃ r', LinkChildrenToParent
        (rendererOver chainParentFirst [2, 3, 5] 2 : Renderer Nat Nat Nat Nat) = some r' ∧
      ComposedWithParents chainParentFirst r'.transformsForGPU :=
  LinkChildrenToParent_composes_parents_first
    (rendererOver chainParentFirst [2, 3, 5] 2) rfl
    (by
      intro o ho
      simp [chainParentFirst, chainScene, rendererOver] at ho
      rcases ho with rfl | rfl | rfl <;>
        simp [hasParent, chainParentFirst, chainScene, rendererOver])
    ⟨id, by
      intro o ho
      simp [chainParentFirst, chainScene, rendererOver] at ho
      rcases ho with rfl | rfl | rfl <;> simp [hasParent]⟩
    (by simp [DistinctTransformIndices, chainParentFirst, chainScene, rendererOver])
    (by simp [ParentsListedFirst, hasParent, chainParentFirst, chainScene, rendererOver])

/-! ### Frame submission -/

theorem modelOf_eq {lvl : Level_Data M V A} {inst : MODEL_INSTANCES}
    (h : inst.modelIndex < lvl.levelModels.length) :
    lvl.levelModels[inst.modelIndex]? = some (modelOf lvl inst) := by
  simp [modelOf, List.getD, List.getElem?_eq_getElem h]

theorem meshAt_eq {lvl : Level_Data M V A} {m : Nat} (h : m < lvl.levelMeshes.length) :
    lvl.levelMeshes[m]? = some (meshAt lvl m) := by
  simp [meshAt, List.getD, List.getElem?_eq_getElem h]

/-- The mesh loop of one instance records one (constant block, draw) pair per mesh
index, in ascending order. -/
theorem forFrom_drawMesh (lvl : Level_Data M V A) (inst : MODEL_INSTANCES) :
    ∀ (n lo : Nat) (s : MESH_DATA × List Command),
      (∀ m, lo ≤ m → m < lo + n → m < lvl.levelMeshes.length) →
      ∃ md, forFrom (drawMesh lvl inst (modelOf lvl inst)) lo n s =
        some (md, s.2 ++ (List.range' lo n).flatMap (fun m =>
          [Command.SetGraphicsRoot32BitConstants 1 2
             (RootData.meshData
               { materialIndex := toUINT m, transformIndexStart := toUINT inst.transformStart }),
           drawOf lvl inst m])) := by
  intro n
  induction n with
  | zero =>
    intro lo s _
    exact ⟨s.1, by simp [forFrom]⟩
  | succ n ih =>
    intro lo s h
    have hlo : lo < lvl.levelMeshes.length := h lo (Nat.le_refl lo) (by omega)
    obtain ⟨md, hmd⟩ := ih (lo + 1)
      ({ materialIndex := toUINT lo, transformIndexStart := toUINT inst.transformStart },
        s.2 ++ [Command.SetGraphicsRoot32BitConstants 1 2
             (RootData.meshData
               { materialIndex := toUINT lo, transformIndexStart := toUINT inst.transformStart }),
           drawOf lvl inst lo]) (fun m h1 h2 => h m (by omega) (by omega))
    refine ⟨md, ?_⟩
    simp only [forFrom, drawMesh, meshAt_eq hlo]
    rw [List.range'_succ, List.flatMap_cons, ← List.append_assoc]
    exact hmd

theorem toUINT_of_le_INT_MAX {n : Nat} (h : n ≤ INT_MAX) : toUINT n = n := by
  unfold INT_MAX at h
  exact Nat.mod_eq_of_lt (by unfold UINT_RANGE; omega)

theorem toINT_of_le_INT_MAX {n : Nat} (h : n ≤ INT_MAX) : toINT n = (n : Int) := by
  have h1 := toUINT_of_le_INT_MAX h
  unfold INT_MAX at h
  unfold toINT
  rw [h1, if_pos (by omega)]

/-- For an instance whose model index and mesh range fit an `int`, the body of the
outer loop is the mesh loop over `meshStart .. meshStart + meshCount - 1` of the
model the table holds. -/
theorem drawInstance_eq (lvl : Level_Data M V A) (inst : MODEL_INSTANCES)
    (s : MESH_DATA × List Command)
    (hmodel : inst.modelIndex < lvl.levelModels.length)
    (hint : inst.modelIndex ≤ INT_MAX)
    (hsum : (modelOf lvl inst).meshStart + (modelOf lvl inst).meshCount ≤ INT_MAX) :
    drawInstance lvl inst s =
      forFrom (drawMesh lvl inst (modelOf lvl inst)) (modelOf lvl inst).meshStart
        (modelOf lvl inst).meshCount s := by
  have hstart : toUINT (modelOf lvl inst).meshStart = (modelOf lvl inst).meshStart :=
    toUINT_of_le_INT_MAX (by omega)
  simp only [drawInstance, toINT_of_le_INT_MAX hint, readAt, Int.ofNat_nonneg, if_true,
    Int.toNat_ofNat, modelOf_eq hmodel, hstart, toUINT_of_le_INT_MAX hsum]
  by_cases hcount : (modelOf lvl inst).meshCount = 0
  · rw [if_neg (by omega), hcount]
    rfl
  · rw [if_pos (by omega), if_pos hsum]
    simp only [forLoop, Nat.add_sub_cancel_left]

/-- The two nested loops record the per-draw pairs of every instance, in order. -/
theorem drawLoop_commands (lvl : Level_Data M V A) :
    ∀ (insts : List MODEL_INSTANCES) (s : MESH_DATA × List Command),
      (∀ inst ∈ insts, inst.modelIndex < lvl.levelModels.length ∧
        inst.modelIndex ≤ INT_MAX ∧
        (modelOf lvl inst).meshStart + (modelOf lvl inst).meshCount ≤ INT_MAX ∧
        ∀ m, (modelOf lvl inst).meshStart ≤ m →
          m < (modelOf lvl inst).meshStart + (modelOf lvl inst).meshCount →
          m < lvl.levelMeshes.length) →
      ∃ md, drawLoop lvl insts s =
        some (md, s.2 ++ insts.flatMap (fun inst =>
          (List.range' (modelOf lvl inst).meshStart (modelOf lvl inst).meshCount).flatMap
            (fun m =>
              [Command.SetGraphicsRoot32BitConstants 1 2
                 (RootData.meshData
                   { materialIndex := toUINT m, transformIndexStart := toUINT inst.transformStart }),
               drawOf lvl inst m]))) := by
  intro insts
  induction insts with
  | nil =>
    intro s _
    exact ⟨s.1, by simp [drawLoop]⟩
  | cons inst rest ih =>
    intro s h
    obtain ⟨hmodel, hint, hsum, hmesh⟩ := h inst (List.mem_cons_self _ _)
    obtain ⟨md1, h1⟩ := forFrom_drawMesh lvl inst (modelOf lvl inst).meshCount
      (modelOf lvl inst).meshStart s hmesh
    obtain ⟨md, hmd⟩ := ih (md1, s.2 ++
      (List.range' (modelOf lvl inst).meshStart (modelOf lvl inst).meshCount).flatMap
        (fun m =>
          [Command.SetGraphicsRoot32BitConstants 1 2
             (RootData.meshData
               { materialIndex := toUINT m, transformIndexStart := toUINT inst.transformStart }),
           drawOf lvl inst m])) (fun i hi => h i (List.mem_cons_of_mem _ hi))
    refine ⟨md, ?_⟩
    simp only [drawLoop, drawInstance_eq lvl inst s hmodel hint hsum, h1]
    rw [List.flatMap_cons, ← List.append_assoc]
    exact hmd

theorem beginFrame_prelude [ElementBytes M] [ElementBytes V] [ElementBytes A]
    {loader : LevelLoader M V A P} {r r1 : Renderer M V A P}
    {k1 k2 : Bool} {curFrame : Nat} {commands : List Command}
    (h : beginFrame loader r k1 k2 curFrame = some (r1, commands)) :
    commands = framePrelude curFrame := by
  unfold beginFrame at h
  split at h
  · split at h
    · split at h
      · simp only [Option.some.injEq, Prod.mk.injEq] at h
        exact h.2.symm
      · exact absurd h (by simp)
    · exact absurd h (by simp)
  · exact absurd h (by simp)

/-- Whenever the frame prelude is defined and the draw tables are index-valid,
`Render` records the prelude followed by the per-draw pairs with the mesh index as
material index. -/
theorem Render_commands [ElementBytes M] [ElementBytes V] [ElementBytes A]
    {loader : LevelLoader M V A P} {r r1 : Renderer M V A P}
    {k1 k2 : Bool} {curFrame : Nat} {commands : List Command}
    (hpre : beginFrame loader r k1 k2 curFrame = some (r1, commands))
    (hvalid : DrawTablesValid r1.levelHandle) :
    ∃ md, Render loader r k1 k2 curFrame =
      some ({ r1 with meshDataForGPU := md },
        framePrelude curFrame ++ perDrawCommands (fun m => m) r1.levelHandle) := by
  obtain ⟨md, hmd⟩ := drawLoop_commands r1.levelHandle r1.levelHandle.levelInstances
    (r1.meshDataForGPU, commands) hvalid
  have hcommands := beginFrame_prelude hpre
  subst hcommands
  exact ⟨md, by simp only [Render, hpre, hmd, perDrawCommands]⟩

theorem drawCalls_framePrelude (curFrame : Nat) : drawCalls (framePrelude curFrame) = [] :=
  rfl

theorem drawCalls_perDrawCommands (materialOf : Nat → Nat) (lvl : Level_Data M V A) :
    drawCalls (perDrawCommands materialOf lvl) = instanceMajorDraws lvl := by
  unfold drawCalls perDrawCommands instanceMajorDraws
  rw [List.filter_flatMap]
  congr 1
  funext inst
  rw [List.filter_flatMap]
  induction List.range' (modelOf lvl inst).meshStart (modelOf lvl inst).meshCount with
  | nil => rfl
  | cons m ms ih =>
    rw [List.flatMap_cons, List.map_cons, ih]
    simp [isDraw, drawOf]

theorem length_instanceMajorDraws (lvl : Level_Data M V A) :
    (instanceMajorDraws lvl).length =
      (lvl.levelInstances.map (fun inst => (modelOf lvl inst).meshCount)).sum := by
  unfold instanceMajorDraws
  induction lvl.levelInstances with
  | nil => rfl
  | cons inst rest ih =>
    rw [List.flatMap_cons, List.length_append, ih]
    simp

/-- C2, as stated, fails, in two scenes whose only instance has a valid
`modelIndex` and on a renderer for which the part of `Render` before the draw loops
is defined. In `wrappingMeshRangeScene` the model has `meshStart = 2^32 - 1` and
`meshCount = 2`: the unsigned loop bound `meshStart + meshCount` wraps to 1, the
inner loop is not entered and `Render` records no draw, where the sum of the mesh
counts is 2. In `shortMeshTableScene` the model's three meshes start at mesh index 1
of a three-entry `levelMeshes`: the inner loop reads `levelMeshes[3]`, past the
table, so `Render` is undefined and no frame with the 3 draws of the sum is
recorded. -/
theorem Render_mesh_range_unchecked :
    (∀ inst ∈ wrappingMeshRangeScene.levelInstances,
      inst.modelIndex < wrappingMeshRangeScene.levelModels.length) ∧
    (wrappingMeshRangeScene.levelInstances.map
      (fun inst => (modelOf wrappingMeshRangeScene inst).meshCount)).sum = 2 ∧
    (∃ r' recorded,
      Render failingLoader (rendererOver wrappingMeshRangeScene [2, 3] 3) false false 1
        = some (r', recorded) ∧
      recorded = framePrelude 1 ∧
      (drawCalls recorded).length = 0) ∧
    (∀ inst ∈ shortMeshTableScene.levelInstances,
      inst.modelIndex < shortMeshTableScene.levelModels.length) ∧
    (shortMeshTableScene.levelInstances.map
      (fun inst => (modelOf shortMeshTableScene inst).meshCount)).sum = 3 ∧
    beginFrame failingLoader (rendererOver shortMeshTableScene [2, 3] 3) false false 1
      = some (rendererOver shortMeshTableScene [2, 3] 3, framePrelude 1) ∧
    Render failingLoader (rendererOver shortMeshTableScene [2, 3] 3) false false 1
      = none ∧
    ¬ ∃ r' recorded,
      Render failingLoader (rendererOver shortMeshTableScene [2, 3] 3) false false 1
        = some (r', recorded) ∧
      (drawCalls recorded).length = 3 := by
  have hnone : Render failingLoader (rendererOver shortMeshTableScene [2, 3] 3)
      false false 1 = none := rfl
  refine ⟨by decide, rfl, ⟨_, _, rfl, rfl, rfl⟩, by decide, rfl, rfl, hnone, ?_⟩
  rintro ⟨r', recorded, h, _⟩
  rw [hnone] at h
  exact absurd h (by simp)

/-- C2, amended: for every call of `Render` whose part before the draw loops is
defined (`HandleLevelSwapping` returns, the current slot has an allocated transform
buffer with room for `transformsForGPU` and an allocated material buffer), and for
the scene then held by the handle, if each instance's `modelIndex` is valid and at
most `2^31 - 1`, the sum `meshStart + meshCount` of its model is at most `2^31 - 1`,
and every mesh index from `meshStart` to `meshStart + meshCount - 1` lies inside
`levelMeshes`, then `Render` returns and records exactly `sum over instances of
levelModels[instance.modelIndex].meshCount` calls of `DrawIndexedInstanced`. -/
theorem Render_draw_count [ElementBytes M] [ElementBytes V] [ElementBytes A]
    {loader : LevelLoader M V A P} {r r1 : Renderer M V A P}
    {k1 k2 : Bool} {curFrame : Nat} {commands : List Command}
    (hpre : beginFrame loader r k1 k2 curFrame = some (r1, commands))
    (hvalid : DrawTablesValid r1.levelHandle) :
    ∃ r' recorded, Render loader r k1 k2 curFrame = some (r', recorded) ∧
      r'.levelHandle = r1.levelHandle ∧
      (drawCalls recorded).length =
        (r1.levelHandle.levelInstances.map
          (fun inst => (modelOf r1.levelHandle inst).meshCount)).sum := by
  obtain ⟨md, hmd⟩ := Render_commands hpre hvalid
  refine ⟨_, _, hmd, rfl, ?_⟩
  unfold drawCalls
  rw [List.filter_append]
  change (drawCalls (framePrelude curFrame) ++ drawCalls (perDrawCommands _ _)).length = _
  rw [drawCalls_framePrelude, drawCalls_perDrawCommands, List.nil_append,
    length_instanceMajorDraws]

theorem twoInstanceScene_valid : DrawTablesValid twoInstanceScene := by
  intro inst hinst
  simp [twoInstanceScene] at hinst
  rcases hinst with rfl | rfl <;>
    exact ⟨by simp [twoInstanceScene], by decide, by decide, fun m _ hm => by
      simp [twoInstanceScene, modelOf] at hm ⊢
      omega⟩

/-- Witness for the amended C2: two instances of a three-mesh model give six
draws. -/
theorem Render_draw_count_witness :
    ∃ r' recorded,
      Render failingLoader (rendererOver twoInstanceScene [2, 3] 3) false false 1
        = some (r', recorded) ∧
      r'.levelHandle = twoInstanceScene ∧ (drawCalls recorded).length = 6 :=
  Render_draw_count
    (show beginFrame failingLoader (rendererOver twoInstanceScene [2, 3] 3) false false 1
      = some (rendererOver twoInstanceScene [2, 3] 3, framePrelude 1) from rfl)
    twoInstanceScene_valid

/-- C3, as stated, fails: in `wrappingIndexScene` the model's `indexStart` is
`2^32 - 1` and the mesh's `indexOffset` is 1. The sum `4294967296` does not fit the
32-bit `UINT` parameter of `DrawIndexedInstanced`, and the draw that `Render`
records has start index 0. -/
theorem Render_start_index_wraps :
    DrawTablesValid wrappingIndexScene ∧
    instanceMajorDrawsExact wrappingIndexScene
      = [Command.DrawIndexedInstanced 3 1 4294967296 0 0] ∧
    ∃ r' recorded,
      Render failingLoader (rendererOver wrappingIndexScene [2, 3] 3) false false 1
        = some (r', recorded) ∧
      drawCalls recorded = [Command.DrawIndexedInstanced 3 1 0 0 0] ∧
      drawCalls recorded ≠ instanceMajorDrawsExact wrappingIndexScene := by
  refine ⟨?_, rfl, _, _, rfl, rfl, by decide⟩
  intro inst hinst
  simp [wrappingIndexScene] at hinst
  subst hinst
  exact ⟨by simp [wrappingIndexScene], by decide, by decide, fun m _ hm => by
    simp [wrappingIndexScene, twoInstanceScene, modelOf] at hm ⊢
    omega⟩

/-- C3, amended: for every call of `Render` whose part before the draw loops is
defined (`HandleLevelSwapping` returns, the current slot has an allocated transform
buffer with room for `transformsForGPU` and an allocated material buffer), and for
the scene then held by the handle, if each instance's `modelIndex` is valid and at
most `2^31 - 1`, the sum `meshStart + meshCount` of its model is at most `2^31 - 1`,
and every mesh index from `meshStart` to `meshStart + meshCount - 1` lies inside
`levelMeshes`, then `Render` returns and the draw calls it records are
instance-major, mesh-minor: the
concatenation, over instances in list order, of one draw per mesh index from
`meshStart` to `meshStart + meshCount - 1` ascending, each with the mesh's index
count, the instance's transform count and the start index `indexStart +
indexOffset`, all three reduced modulo `2^32`, the base vertex `vertexStart` read as
a 32-bit signed value, and start instance 0. -/
theorem Render_draws_instance_major [ElementBytes M] [ElementBytes V] [ElementBytes A]
    {loader : LevelLoader M V A P} {r r1 : Renderer M V A P}
    {k1 k2 : Bool} {curFrame : Nat} {commands : List Command}
    (hpre : beginFrame loader r k1 k2 curFrame = some (r1, commands))
    (hvalid : DrawTablesValid r1.levelHandle) :
    ∃ r' recorded, Render loader r k1 k2 curFrame = some (r', recorded) ∧
      r'.levelHandle = r1.levelHandle ∧
      drawCalls recorded = instanceMajorDraws r1.levelHandle := by
  obtain ⟨md, hmd⟩ := Render_commands hpre hvalid
  refine ⟨_, _, hmd, rfl, ?_⟩
  unfold drawCalls
  rw [List.filter_append]
  change drawCalls (framePrelude curFrame) ++ drawCalls (perDrawCommands _ _) = _
  rw [drawCalls_framePrelude, drawCalls_perDrawCommands, List.nil_append]

/-- Witness for the amended C3: the six draws of the two-instance scene, in
order. -/
theorem Render_draws_instance_major_witness :
    ∃ r' recorded,
      Render failingLoader (rendererOver twoInstanceScene [2, 3] 3) false false 1
        = some (r', recorded) ∧
      r'.levelHandle = twoInstanceScene ∧
      drawCalls recorded =
        [Command.DrawIndexedInstanced 3 1 0 0 0, Command.DrawIndexedInstanced 3 1 3 0 0,
         Command.DrawIndexedInstanced 3 1 6 0 0, Command.DrawIndexedInstanced 3 1 0 0 0,
         Command.DrawIndexedInstanced 3 1 3 0 0, Command.DrawIndexedInstanced 3 1 6 0 0] :=
  Render_draws_instance_major
    (show beginFrame failingLoader (rendererOver twoInstanceScene [2, 3] 3) false false 1
      = some (rendererOver twoInstanceScene [2, 3] 3, framePrelude 1) from rfl)
    twoInstanceScene_valid

theorem writeAt_of_lt {α : Type} {v : List α} {i : Nat} (x : α) (h : i < v.length) :
    writeAt v i x = some (v.set i x) := by
  simp [writeAt, h]

theorem toUINT_of_lt {n : Nat} (h : n < UINT_RANGE) : toUINT n = n :=
  Nat.mod_eq_of_lt h

/-- A non-empty table whose byte size is below `2^32` ends up in its buffer
whole. -/
theorem createAndFill_fit {α : Type} (elementBytes : Nat) (data : List α)
    (hpos : 0 < elementBytes) (hlen : 0 < data.length) :
    createAndFill elementBytes (elementBytes * data.length)
        (elementBytes * data.length) data = some data := by
  have hne : elementBytes * data.length ≠ 0 := Nat.pos_iff_ne_zero.mp (Nat.mul_pos hpos hlen)
  have hdiv : elementBytes * data.length / elementBytes = data.length :=
    Nat.mul_div_cancel_left _ hpos
  simp [createAndFill, hne, hdiv]

theorem InitializeVertexBuffer_fit [ElementBytes V] (r : Renderer M V A P)
    (hlen : 0 < r.levelHandle.levelVertices.length)
    (hfit : ElementBytes.sizeofBytes V * r.levelHandle.levelVertices.length < UINT_RANGE) :
    InitializeVertexBuffer r = some { r with
      vertexBuffer := some r.levelHandle.levelVertices
      effects := r.effects ++ [Effect.CreateVertexBuffer
        (ElementBytes.sizeofBytes V * r.levelHandle.levelVertices.length)] } := by
  simp only [InitializeVertexBuffer,
    toUINT_of_lt hfit,
    createAndFill_fit _ _ ElementBytes.sizeofBytes_pos hlen]

theorem InitializeIndexBuffer_of_fill (r : Renderer M V A P) {buffer : List Nat}
    (hfill : createAndFill sizeofIndex
      (toUINT (sizeofIndex * r.levelHandle.levelIndices.length))
      (toUINT (sizeofIndex * r.levelHandle.levelIndices.length))
      r.levelHandle.levelIndices = some buffer) :
    InitializeIndexBuffer r = some { r with
      indexBuffer := some buffer
      effects := r.effects ++ [Effect.CreateIndexBuffer
        (toUINT (sizeofIndex * r.levelHandle.levelIndices.length))] } := by
  simp only [InitializeIndexBuffer, hfill]

theorem InitializeIndexBuffer_fit (r : Renderer M V A P)
    (hlen : 0 < r.levelHandle.levelIndices.length)
    (hfit : sizeofIndex * r.levelHandle.levelIndices.length < UINT_RANGE) :
    InitializeIndexBuffer r = some { r with
      indexBuffer := some r.levelHandle.levelIndices
      effects := r.effects ++ [Effect.CreateIndexBuffer
        (sizeofIndex * r.levelHandle.levelIndices.length)] } := by
  simp only [InitializeIndexBuffer,
    toUINT_of_lt hfit,
    createAndFill_fit _ _ (by decide : 0 < sizeofIndex) hlen]

theorem initTransformSlot_fit [ElementBytes M] (i : Nat) (r : Renderer M V A P)
    (hi : i < r.transformStructuredBuffer.length)
    (hlen : 0 < r.levelHandle.levelTransforms.length)
    (hfit : ElementBytes.sizeofBytes M * r.levelHandle.levelTransforms.length
      < UINT_RANGE) :
    initTransformSlot i r = some { r with
      transformStructuredBuffer :=
        r.transformStructuredBuffer.set i (some r.levelHandle.levelTransforms)
      effects := r.effects ++ [Effect.CreateTransformBuffer i
        (ElementBytes.sizeofBytes M * r.levelHandle.levelTransforms.length)] } := by
  simp only [initTransformSlot, toUINT_of_lt hfit,
    createAndFill_fit _ _ ElementBytes.sizeofBytes_pos hlen, writeAt_of_lt _ hi]

theorem initMaterialSlot_fit [ElementBytes A] (i : Nat) (r : Renderer M V A P)
    (hi : i < r.materialStructuredBuffer.length)
    (hlen : 0 < r.levelHandle.levelMaterials.length)
    (hfit : ElementBytes.sizeofBytes A * r.levelHandle.levelMaterials.length
      < UINT_RANGE) :
    initMaterialSlot i r = some { r with
      materialStructuredBuffer :=
        r.materialStructuredBuffer.set i
          (some (r.levelHandle.levelMaterials.map (fun x => x.attrib)))
      effects := r.effects ++ [Effect.CreateMaterialBuffer i
        (ElementBytes.sizeofBytes A * r.levelHandle.levelMaterials.length)] } := by
  have h := createAndFill_fit (ElementBytes.sizeofBytes A)
    (r.levelHandle.levelMaterials.map (fun x => x.attrib)) ElementBytes.sizeofBytes_pos
    (by simpa using hlen)
  rw [List.length_map] at h
  simp only [initMaterialSlot, toUINT_of_lt hfit, h, writeAt_of_lt _ hi]

/-- The first loop of `InitializeStructuredBuffersAndViews` run over slots
`lo .. lo + n - 1`, for a non-empty transform table that fits. -/
theorem forFrom_initTransformSlot [ElementBytes M] :
    ∀ (n lo : Nat) (r : Renderer M V A P), lo + n ≤ r.transformStructuredBuffer.length →
      0 < r.levelHandle.levelTransforms.length →
      ElementBytes.sizeofBytes M * r.levelHandle.levelTransforms.length < UINT_RANGE →
      ∃ t, forFrom initTransformSlot lo n r =
          some { r with
            transformStructuredBuffer := t
            effects := r.effects ++ (List.range' lo n).map (fun i =>
              Effect.CreateTransformBuffer i
                (ElementBytes.sizeofBytes M * r.levelHandle.levelTransforms.length)) } ∧
        t.length = r.transformStructuredBuffer.length ∧
        ∀ j, t[j]? = if lo ≤ j ∧ j < lo + n then some (some r.levelHandle.levelTransforms)
          else r.transformStructuredBuffer[j]? := by
  intro n
  induction n with
  | zero =>
    intro lo r _ _ _
    refine ⟨r.transformStructuredBuffer, ?_, rfl, ?_⟩
    · simp [forFrom]
    · intro j
      have : ¬ (lo ≤ j ∧ j < lo + 0) := by omega
      rw [if_neg this]
  | succ n ih =>
    intro lo r h hpos hfit
    have hlo : lo < r.transformStructuredBuffer.length := by omega
    obtain ⟨t, hrun, hlen, hget⟩ := ih (lo + 1)
      { r with
        transformStructuredBuffer :=
          r.transformStructuredBuffer.set lo (some r.levelHandle.levelTransforms)
        effects := r.effects ++
          [Effect.CreateTransformBuffer lo
            (ElementBytes.sizeofBytes M * r.levelHandle.levelTransforms.length)] }
      (by simp only [List.length_set]; omega) hpos hfit
    refine ⟨t, ?_, ?_, ?_⟩
    · simp only [forFrom, initTransformSlot_fit lo r hlo hpos hfit]
      rw [hrun]
      simp [List.range'_succ]
    · simpa using hlen
    · intro j
      rw [hget j]
      by_cases hj : j = lo
      · subst hj
        have h1 : ¬ (j + 1 ≤ j ∧ j < j + 1 + n) := by omega
        have h2 : j ≤ j ∧ j < j + (n + 1) := by omega
        rw [if_neg h1, if_pos h2]
        exact List.getElem?_set_self hlo
      · by_cases hin : lo + 1 ≤ j ∧ j < lo + 1 + n
        · have h2 : lo ≤ j ∧ j < lo + (n + 1) := by omega
          rw [if_pos hin, if_pos h2]
        · have h2 : ¬ (lo ≤ j ∧ j < lo + (n + 1)) := by omega
          rw [if_neg hin, if_neg h2]
          exact List.getElem?_set_ne (Ne.symm hj)

/-- The second loop of `InitializeStructuredBuffersAndViews` run over slots
`lo .. lo + n - 1`, for a non-empty material table that fits. -/
theorem forFrom_initMaterialSlot [ElementBytes A] :
    ∀ (n lo : Nat) (r : Renderer M V A P), lo + n ≤ r.materialStructuredBuffer.length →
      0 < r.levelHandle.levelMaterials.length →
      ElementBytes.sizeofBytes A * r.levelHandle.levelMaterials.length < UINT_RANGE →
      ∃ m, forFrom initMaterialSlot lo n r =
          some { r with
            materialStructuredBuffer := m
            effects := r.effects ++ (List.range' lo n).map (fun i =>
              Effect.CreateMaterialBuffer i
                (ElementBytes.sizeofBytes A * r.levelHandle.levelMaterials.length)) } ∧
        m.length = r.materialStructuredBuffer.length ∧
        ∀ j, m[j]? = if lo ≤ j ∧ j < lo + n
          then some (some (r.levelHandle.levelMaterials.map (fun x => x.attrib)))
          else r.materialStructuredBuffer[j]? := by
  intro n
  induction n with
  | zero =>
    intro lo r _ _ _
    refine ⟨r.materialStructuredBuffer, ?_, rfl, ?_⟩
    · simp [forFrom]
    · intro j
      have : ¬ (lo ≤ j ∧ j < lo + 0) := by omega
      rw [if_neg this]
  | succ n ih =>
    intro lo r h hpos hfit
    have hlo : lo < r.materialStructuredBuffer.length := by omega
    obtain ⟨m, hrun, hlen, hget⟩ := ih (lo + 1)
      { r with
        materialStructuredBuffer :=
          r.materialStructuredBuffer.set lo
            (some (r.levelHandle.levelMaterials.map (fun x => x.attrib)))
        effects := r.effects ++
          [Effect.CreateMaterialBuffer lo
            (ElementBytes.sizeofBytes A * r.levelHandle.levelMaterials.length)] }
      (by simp only [List.length_set]; omega) hpos hfit
    refine ⟨m, ?_, ?_, ?_⟩
    · simp only [forFrom, initMaterialSlot_fit lo r hlo hpos hfit]
      rw [hrun]
      simp [List.range'_succ]
    · simpa using hlen
    · intro j
      rw [hget j]
      by_cases hj : j = lo
      · subst hj
        have h1 : ¬ (j + 1 ≤ j ∧ j < j + 1 + n) := by omega
        have h2 : j ≤ j ∧ j < j + (n + 1) := by omega
        rw [if_neg h1, if_pos h2]
        exact List.getElem?_set_self hlo
      · by_cases hin : lo + 1 ≤ j ∧ j < lo + 1 + n
        · have h2 : lo ≤ j ∧ j < lo + (n + 1) := by omega
          rw [if_pos hin, if_pos h2]
        · have h2 : ¬ (lo ≤ j ∧ j < lo + (n + 1)) := by omega
          rw [if_neg hin, if_neg h2]
          exact List.getElem?_set_ne (Ne.symm hj)

/-- The reset loop of the level swap changes nothing but the two slot vectors and
keeps their lengths. -/
theorem forFrom_resetSlot :
    ∀ (n lo : Nat) (r : Renderer M V A P), lo + n ≤ r.transformStructuredBuffer.length →
      lo + n ≤ r.materialStructuredBuffer.length →
      ∃ t m, forFrom resetSlot lo n r =
          some { r with transformStructuredBuffer := t, materialStructuredBuffer := m } ∧
        t.length = r.transformStructuredBuffer.length ∧
        m.length = r.materialStructuredBuffer.length := by
  intro n
  induction n with
  | zero =>
    intro lo r _ _
    exact ⟨r.transformStructuredBuffer, r.materialStructuredBuffer, by simp [forFrom],
      rfl, rfl⟩
  | succ n ih =>
    intro lo r ht hm
    have hlt : lo < r.transformStructuredBuffer.length := by omega
    have hlm : lo < r.materialStructuredBuffer.length := by omega
    obtain ⟨t, m, hrun, hlent, hlenm⟩ := ih (lo + 1)
      { r with
        transformStructuredBuffer := r.transformStructuredBuffer.set lo none
        materialStructuredBuffer := r.materialStructuredBuffer.set lo none }
      (by simp only [List.length_set]; omega) (by simp only [List.length_set]; omega)
    refine ⟨t, m, ?_, by simpa using hlent, by simpa using hlenm⟩
    simp only [forFrom, resetSlot, writeAt_of_lt _ hlt, writeAt_of_lt _ hlm]
    rw [hrun]

/-- Effect of `InitializeStructuredBuffersAndViews` when the descriptor heap has room
for two views per slot and the transform and material tables are non-empty and fit: every slot below
`maxActiveFrames` gets a transform buffer holding `levelTransforms` and a material
buffer holding the materials' attribute records; nothing else changes but the
effect log. -/
theorem InitializeStructuredBuffersAndViews_spec [ElementBytes M] [ElementBytes A]
    (r : Renderer M V A P) {heap : Nat}
    (hheap : r.descriptorHeap = some heap)
    (hroom : r.maxActiveFrames * 2 ≤ heap)
    (ht : r.maxActiveFrames ≤ r.transformStructuredBuffer.length)
    (hm : r.maxActiveFrames ≤ r.materialStructuredBuffer.length)
    (hposT : 0 < r.levelHandle.levelTransforms.length)
    (hfitT : ElementBytes.sizeofBytes M * r.levelHandle.levelTransforms.length < UINT_RANGE)
    (hposA : 0 < r.levelHandle.levelMaterials.length)
    (hfitA : ElementBytes.sizeofBytes A * r.levelHandle.levelMaterials.length < UINT_RANGE) :
    ∃ t m, InitializeStructuredBuffersAndViews r =
        some { r with
          transformStructuredBuffer := t
          materialStructuredBuffer := m
          effects := r.effects ++
            (List.range' 0 r.maxActiveFrames).map (fun i =>
              Effect.CreateTransformBuffer i
                (ElementBytes.sizeofBytes M * r.levelHandle.levelTransforms.length)) ++
            (List.range' 0 r.maxActiveFrames).map (fun i =>
              Effect.CreateMaterialBuffer i
                (ElementBytes.sizeofBytes A * r.levelHandle.levelMaterials.length)) } ∧
      t.length = r.transformStructuredBuffer.length ∧
      m.length = r.materialStructuredBuffer.length ∧
      (∀ i, i < r.maxActiveFrames → t[i]? = some (some r.levelHandle.levelTransforms)) ∧
      (∀ i, i < r.maxActiveFrames →
        m[i]? = some (some (r.levelHandle.levelMaterials.map (fun x => x.attrib)))) := by
  obtain ⟨t, hrunt, hlent, hgett⟩ :=
    forFrom_initTransformSlot r.maxActiveFrames 0 r (by omega) hposT hfitT
  obtain ⟨m, hrunm, hlenm, hgetm⟩ :=
    forFrom_initMaterialSlot r.maxActiveFrames 0
      { r with
        transformStructuredBuffer := t
        effects := r.effects ++ (List.range' 0 r.maxActiveFrames).map (fun i =>
          Effect.CreateTransformBuffer i
            (ElementBytes.sizeofBytes M * r.levelHandle.levelTransforms.length)) }
      (by simpa using hm) hposA hfitA
  refine ⟨t, m, ?_, hlent, by simpa using hlenm, ?_, ?_⟩
  · simp only [InitializeStructuredBuffersAndViews, hheap, forLoop, Nat.sub_zero, hrunt,
      if_neg (Nat.not_lt.mpr hroom)]
    rw [← hheap, hrunm]
  · intro i hi
    rw [hgett i, if_pos ⟨Nat.zero_le _, by omega⟩]
  · intro i hi
    rw [hgetm i, if_pos ⟨Nat.zero_le _, by omega⟩]

/-- What a taken branch of `HandleLevelSwapping` does, whatever the loader reports,
when the descriptor heap has room for two views per slot, the vertex, transform and
material tables left by the loader are non-empty and fit, and the index buffer is
created and filled with `indices`: the handle holds the tables left by `LoadLevel`
after `UnloadLevel`, both flags are flipped, the geometry buffers and every slot are
rebuilt, and the working array `transformsForGPU` is not touched. -/
theorem swapLevel_general [ElementBytes M] [ElementBytes V] [ElementBytes A]
    (loader : LevelLoader M V A P) (path : Nat) (r : Renderer M V A P)
    {gamePath modelPath : P} {heap : Nat} {indices : List Nat}
    (hgame : r.gameLevelPaths[path]? = some gamePath)
    (hmodel : r.levelModelPaths[path]? = some modelPath)
    (ht : r.maxActiveFrames ≤ r.transformStructuredBuffer.length)
    (hm : r.maxActiveFrames ≤ r.materialStructuredBuffer.length)
    (hheap : r.descriptorHeap = some heap)
    (hroom : r.maxActiveFrames * 2 ≤ heap)
    (hV : 0 < (loader.LoadLevel gamePath modelPath
        (loader.UnloadLevel r.levelHandle)).1.levelVertices.length ∧
      ElementBytes.sizeofBytes V * (loader.LoadLevel gamePath modelPath
        (loader.UnloadLevel r.levelHandle)).1.levelVertices.length < UINT_RANGE)
    (hI : createAndFill sizeofIndex
      (toUINT (sizeofIndex * (loader.LoadLevel gamePath modelPath
        (loader.UnloadLevel r.levelHandle)).1.levelIndices.length))
      (toUINT (sizeofIndex * (loader.LoadLevel gamePath modelPath
        (loader.UnloadLevel r.levelHandle)).1.levelIndices.length))
      (loader.LoadLevel gamePath modelPath
        (loader.UnloadLevel r.levelHandle)).1.levelIndices = some indices)
    (hT : 0 < (loader.LoadLevel gamePath modelPath
        (loader.UnloadLevel r.levelHandle)).1.levelTransforms.length ∧
      ElementBytes.sizeofBytes M * (loader.LoadLevel gamePath modelPath
        (loader.UnloadLevel r.levelHandle)).1.levelTransforms.length < UINT_RANGE)
    (hA : 0 < (loader.LoadLevel gamePath modelPath
        (loader.UnloadLevel r.levelHandle)).1.levelMaterials.length ∧
      ElementBytes.sizeofBytes A * (loader.LoadLevel gamePath modelPath
        (loader.UnloadLevel r.levelHandle)).1.levelMaterials.length < UINT_RANGE) :
    ∃ t m, swapLevel loader path r =
        some { r with
          levelHandle := (loader.LoadLevel gamePath modelPath (loader.UnloadLevel r.levelHandle)).1
          level1 := !r.level1
          level2 := !r.level2
          vertexBuffer := some
            (loader.LoadLevel gamePath modelPath (loader.UnloadLevel r.levelHandle)).1.levelVertices
          indexBuffer := some indices
          transformStructuredBuffer := t
          materialStructuredBuffer := m
          effects := r.effects ++
            [Effect.UnloadLevel, Effect.LoadLevel gamePath modelPath,
             Effect.Log_SwitchedLevels, Effect.ResetBuffers,
             Effect.CreateVertexBuffer (ElementBytes.sizeofBytes V *
               (loader.LoadLevel gamePath modelPath
                 (loader.UnloadLevel r.levelHandle)).1.levelVertices.length),
             Effect.CreateIndexBuffer (toUINT (sizeofIndex *
               (loader.LoadLevel gamePath modelPath
                 (loader.UnloadLevel r.levelHandle)).1.levelIndices.length))] ++
            (List.range' 0 r.maxActiveFrames).map (fun i =>
              Effect.CreateTransformBuffer i (ElementBytes.sizeofBytes M *
                (loader.LoadLevel gamePath modelPath
                  (loader.UnloadLevel r.levelHandle)).1.levelTransforms.length)) ++
            (List.range' 0 r.maxActiveFrames).map (fun i =>
              Effect.CreateMaterialBuffer i (ElementBytes.sizeofBytes A *
                (loader.LoadLevel gamePath modelPath
                  (loader.UnloadLevel r.levelHandle)).1.levelMaterials.length)) } ∧
      t.length = r.transformStructuredBuffer.length ∧
      m.length = r.materialStructuredBuffer.length ∧
      (∀ i, i < r.maxActiveFrames → t[i]? = some (some
        (loader.LoadLevel gamePath modelPath (loader.UnloadLevel r.levelHandle)).1.levelTransforms)) ∧
      (∀ i, i < r.maxActiveFrames → m[i]? = some (some
        ((loader.LoadLevel gamePath modelPath
          (loader.UnloadLevel r.levelHandle)).1.levelMaterials.map (fun x => x.attrib)))) := by
  obtain ⟨t0, m0, hreset, hlt0, hlm0⟩ := forFrom_resetSlot r.maxActiveFrames 0
    { r with
      levelHandle := (loader.LoadLevel gamePath modelPath (loader.UnloadLevel r.levelHandle)).1
      level1 := !r.level1
      level2 := !r.level2
      vertexBuffer := none
      indexBuffer := none
      effects := r.effects ++ [Effect.UnloadLevel] ++ [Effect.LoadLevel gamePath modelPath]
        ++ [Effect.Log_SwitchedLevels] ++ [Effect.ResetBuffers] }
    (by simpa using ht) (by simpa using hm)
  have hlt0' : t0.length = r.transformStructuredBuffer.length := hlt0
  have hlm0' : m0.length = r.materialStructuredBuffer.length := hlm0
  have hvertex := InitializeVertexBuffer_fit
    ({ r with
      levelHandle := (loader.LoadLevel gamePath modelPath (loader.UnloadLevel r.levelHandle)).1
      level1 := !r.level1
      level2 := !r.level2
      vertexBuffer := none
      indexBuffer := none
      transformStructuredBuffer := t0
      materialStructuredBuffer := m0
      effects := r.effects ++ [Effect.UnloadLevel] ++
        [Effect.LoadLevel gamePath modelPath] ++ [Effect.Log_SwitchedLevels] ++
        [Effect.ResetBuffers] } : Renderer M V A P) hV.1 hV.2
  have hindex := InitializeIndexBuffer_of_fill
    ({ r with
      levelHandle := (loader.LoadLevel gamePath modelPath (loader.UnloadLevel r.levelHandle)).1
      level1 := !r.level1
      level2 := !r.level2
      vertexBuffer := some
        (loader.LoadLevel gamePath modelPath (loader.UnloadLevel r.levelHandle)).1.levelVertices
      indexBuffer := none
      transformStructuredBuffer := t0
      materialStructuredBuffer := m0
      effects := r.effects ++ [Effect.UnloadLevel] ++
        [Effect.LoadLevel gamePath modelPath] ++ [Effect.Log_SwitchedLevels] ++
        [Effect.ResetBuffers] ++ [Effect.CreateVertexBuffer (ElementBytes.sizeofBytes V *
          (loader.LoadLevel gamePath modelPath
            (loader.UnloadLevel r.levelHandle)).1.levelVertices.length)] } :
      Renderer M V A P) hI
  obtain ⟨t, m, hinit, hlt, hlm, hgett, hgetm⟩ := InitializeStructuredBuffersAndViews_spec
    ({ r with
      levelHandle := (loader.LoadLevel gamePath modelPath (loader.UnloadLevel r.levelHandle)).1
      level1 := !r.level1
      level2 := !r.level2
      vertexBuffer := some
        (loader.LoadLevel gamePath modelPath (loader.UnloadLevel r.levelHandle)).1.levelVertices
      indexBuffer := some indices
      transformStructuredBuffer := t0
      materialStructuredBuffer := m0
      effects := r.effects ++ [Effect.UnloadLevel] ++
        [Effect.LoadLevel gamePath modelPath] ++ [Effect.Log_SwitchedLevels] ++
        [Effect.ResetBuffers] ++ [Effect.CreateVertexBuffer (ElementBytes.sizeofBytes V *
          (loader.LoadLevel gamePath modelPath
            (loader.UnloadLevel r.levelHandle)).1.levelVertices.length)] ++
        [Effect.CreateIndexBuffer (toUINT (sizeofIndex *
          (loader.LoadLevel gamePath modelPath
            (loader.UnloadLevel r.levelHandle)).1.levelIndices.length))] } :
      Renderer M V A P)
    hheap hroom
    (by show r.maxActiveFrames ≤ t0.length; omega)
    (by show r.maxActiveFrames ≤ m0.length; omega)
    hT.1 hT.2 hA.1 hA.2
  refine ⟨t, m, ?_, ?_, ?_, hgett, hgetm⟩
  · simp only [swapLevel, hgame, hmodel, forLoop, Nat.sub_zero]
    rw [hreset]
    simp only []
    rw [hvertex]
    simp only []
    rw [hindex]
    simp only []
    rw [hinit]
    simp
  · exact hlt.trans hlt0'
  · exact hlm.trans hlm0'

/-- The taken branch when every table left by the loader is non-empty and fits: the
geometry buffers and every slot hold exactly those tables. -/
theorem swapLevel_spec [ElementBytes M] [ElementBytes V] [ElementBytes A]
    (loader : LevelLoader M V A P) (path : Nat) (r : Renderer M V A P)
    {gamePath modelPath : P} {heap : Nat}
    (hgame : r.gameLevelPaths[path]? = some gamePath)
    (hmodel : r.levelModelPaths[path]? = some modelPath)
    (ht : r.maxActiveFrames ≤ r.transformStructuredBuffer.length)
    (hm : r.maxActiveFrames ≤ r.materialStructuredBuffer.length)
    (hheap : r.descriptorHeap = some heap)
    (hroom : r.maxActiveFrames * 2 ≤ heap)
    (hfit : BufferTablesFit
      (loader.LoadLevel gamePath modelPath (loader.UnloadLevel r.levelHandle)).1) :
    ∃ r', swapLevel loader path r = some r' ∧
      r'.level1 = (!r.level1) ∧ r'.level2 = (!r.level2) ∧
      r'.maxActiveFrames = r.maxActiveFrames ∧
      r'.transformsForGPU = r.transformsForGPU ∧
      r'.levelHandle =
        (loader.LoadLevel gamePath modelPath (loader.UnloadLevel r.levelHandle)).1 ∧
      r'.vertexBuffer = some r'.levelHandle.levelVertices ∧
      r'.indexBuffer = some r'.levelHandle.levelIndices ∧
      r'.transformStructuredBuffer.length = r.transformStructuredBuffer.length ∧
      r'.materialStructuredBuffer.length = r.materialStructuredBuffer.length ∧
      (∀ i, i < r.maxActiveFrames →
        r'.transformStructuredBuffer[i]? = some (some r'.levelHandle.levelTransforms) ∧
        r'.materialStructuredBuffer[i]? =
          some (some (r'.levelHandle.levelMaterials.map (fun x => x.attrib)))) := by
  obtain ⟨hV, hI, hT, hA⟩ := hfit
  have hfill := createAndFill_fit sizeofIndex
    (loader.LoadLevel gamePath modelPath (loader.UnloadLevel r.levelHandle)).1.levelIndices
    (by decide) hI.1
  rw [← toUINT_of_lt hI.2] at hfill
  obtain ⟨t, m, hrun, hlt, hlm, hgett, hgetm⟩ :=
    swapLevel_general loader path r hgame hmodel ht hm hheap hroom hV hfill hT hA
  rw [hrun]
  exact ⟨_, rfl, rfl, rfl, rfl, rfl, rfl, rfl, rfl, hlt, hlm,
    fun i hi => ⟨hgett i hi, hgetm i hi⟩⟩

/-- Effect of `InitializeGraphics` when both shaders compile, the frame count is
positive with `maxActiveFrames * 2` below `2^32`, and every table of the level is
non-empty and fits: the geometry buffers hold the level's vertices and indices, both
slot vectors have `maxActiveFrames` entries and every slot holds the level's
transforms and material records. -/
theorem InitializeGraphics_spec [ElementBytes M] [ElementBytes V] [ElementBytes A]
    (r : Renderer M V A P)
    (hfit : BufferTablesFit r.levelHandle)
    (hframes : 0 < r.maxActiveFrames)
    (hheap : r.maxActiveFrames * 2 < UINT_RANGE) :
    ∃ r', InitializeGraphics true true r = some r' ∧
      r'.levelHandle = r.levelHandle ∧ r'.maxActiveFrames = r.maxActiveFrames ∧
      r'.level1 = r.level1 ∧ r'.level2 = r.level2 ∧
      r'.transformsForGPU = r.transformsForGPU ∧
      r'.vertexBuffer = some r.levelHandle.levelVertices ∧
      r'.indexBuffer = some r.levelHandle.levelIndices ∧
      r'.descriptorHeap = some (r.maxActiveFrames * 2) ∧
      r'.transformStructuredBuffer.length = r.maxActiveFrames ∧
      r'.materialStructuredBuffer.length = r.maxActiveFrames ∧
      (∀ i, i < r.maxActiveFrames →
        r'.transformStructuredBuffer[i]? = some (some r.levelHandle.levelTransforms) ∧
        r'.materialStructuredBuffer[i]? =
          some (some (r.levelHandle.levelMaterials.map (fun x => x.attrib)))) := by
  obtain ⟨hV, hI, hT, hA⟩ := hfit
  have hne : ¬ r.maxActiveFrames * 2 = 0 := by omega
  have hvertex := InitializeVertexBuffer_fit r hV.1 hV.2
  have hindex := InitializeIndexBuffer_fit
    ({ r with
      vertexBuffer := some r.levelHandle.levelVertices
      effects := r.effects ++ [Effect.CreateVertexBuffer
        (ElementBytes.sizeofBytes V * r.levelHandle.levelVertices.length)] } :
      Renderer M V A P) hI.1 hI.2
  obtain ⟨t, m, hinit, hlt, hlm, hgett, hgetm⟩ := InitializeStructuredBuffersAndViews_spec
    ({ r with
      vertexBuffer := some r.levelHandle.levelVertices
      indexBuffer := some r.levelHandle.levelIndices
      transformStructuredBuffer :=
        r.transformStructuredBuffer.take r.maxActiveFrames ++
          List.replicate (r.maxActiveFrames - r.transformStructuredBuffer.length) none
      materialStructuredBuffer :=
        r.materialStructuredBuffer.take r.maxActiveFrames ++
          List.replicate (r.maxActiveFrames - r.materialStructuredBuffer.length) none
      descriptorHeap := some (r.maxActiveFrames * 2)
      effects := r.effects ++ [Effect.CreateVertexBuffer
          (ElementBytes.sizeofBytes V * r.levelHandle.levelVertices.length)] ++
        [Effect.CreateIndexBuffer (sizeofIndex * r.levelHandle.levelIndices.length)] } :
      Renderer M V A P)
    rfl (Nat.le_refl _)
    (by simp only [List.length_append, List.length_take, List.length_replicate]; omega)
    (by simp only [List.length_append, List.length_take, List.length_replicate]; omega)
    hT.1 hT.2 hA.1 hA.2
  unfold InitializeGraphics
  rw [hvertex]
  simp only []
  rw [hindex]
  simp only [InitializeDescriptorHeap, toUINT_of_lt hheap, if_neg hne]
  rw [hinit]
  simp only [InitializeGraphicsPipeline, ↓reduceIte]
  refine ⟨_, rfl, rfl, rfl, rfl, rfl, rfl, rfl, rfl, rfl, ?_, ?_,
    fun i hi => ⟨hgett i hi, hgetm i hi⟩⟩
  · rw [hlt]
    simp only [List.length_append, List.length_take, List.length_replicate]
    omega
  · rw [hlm]
    simp only [List.length_append, List.length_take, List.length_replicate]
    omega

/-- Effect of the constructor under the same conditions, on a level that has the
transform at index 26: level 1 is active, the working array is a copy of
`levelTransforms` and everything `InitializeGraphics` builds is in place. -/
theorem ctor_spec [ElementBytes M] [ElementBytes V] [ElementBytes A]
    (lvl : Level_Data M V A) (BufferCount : Nat)
    (hdog : 26 < lvl.levelTransforms.length)
    (hfit : BufferTablesFit lvl)
    (hframes : 0 < BufferCount)
    (hheap : BufferCount * 2 < UINT_RANGE) :
    ∃ r : Renderer M V A P, Renderer.ctor lvl BufferCount true true = some r ∧
      r.levelHandle = lvl ∧ r.maxActiveFrames = BufferCount ∧
      r.level1 = true ∧ r.level2 = false ∧
      r.transformsForGPU = lvl.levelTransforms ∧
      r.vertexBuffer = some lvl.levelVertices ∧
      r.indexBuffer = some lvl.levelIndices ∧
      r.descriptorHeap = some (BufferCount * 2) ∧
      r.transformStructuredBuffer.length = BufferCount ∧
      r.materialStructuredBuffer.length = BufferCount ∧
      (∀ i, i < BufferCount →
        r.transformStructuredBuffer[i]? = some (some lvl.levelTransforms) ∧
        r.materialStructuredBuffer[i]? =
          some (some (lvl.levelMaterials.map (fun x => x.attrib)))) := by
  obtain ⟨r, hrun, h1, h2, h3, h4, h5, h6, h7, h8, h9, h10, h11⟩ :=
    InitializeGraphics_spec
      (InitializeSceneDataForGPU
        ({ levelHandle := lvl
           transformsForGPU := []
           maxActiveFrames := BufferCount
           vertexBuffer := none
           indexBuffer := none
           transformStructuredBuffer := []
           materialStructuredBuffer := []
           descriptorHeap := none
           meshDataForGPU := { materialIndex := 0, transformIndexStart := 0 }
           level1 := true
           level2 := false
           gameLevelPaths := []
           levelModelPaths := []
           effects := [] } : Renderer M V A P))
      hfit hframes hheap
  refine ⟨r, ?_, h1, h2, h3, h4, ?_, h6, h7, h8, h9, h10, h11⟩
  · simp only [Renderer.ctor, List.getElem?_eq_getElem hdog]
    exact hrun
  · rw [h5]
    exact List.nil_append _

/-! ### Frame resource ring -/

/-- C4, as stated, fails: after the swap from the two-transform level to the
three-transform level the working array still has two elements while every slot
holds three, so `UpdateTransformsForGPU 0` leaves slot 0 holding `[2, 3, 11]`, which
is not the contents of `transformsForGPU`. -/
theorem UpdateTransformsForGPU_stale_tail :
    ∃ r1 r2, HandleLevelSwapping twoLevelLoader (playingLevelOne 1 2) false true = some r1 ∧
      0 < r1.maxActiveFrames ∧
      UpdateTransformsForGPU r1 0 = some r2 ∧
      r2.transformsForGPU = [2, 3] ∧
      r2.transformStructuredBuffer[0]? = some (some [2, 3, 11]) ∧
      r2.transformStructuredBuffer[0]? ≠ some (some r2.transformsForGPU) :=
  ⟨_, _, rfl, by decide, rfl, rfl, rfl, by decide⟩

/-- C4, amended: when slot `k` exists, is allocated and its transform buffer has
exactly as many elements as `transformsForGPU`, `UpdateTransformsForGPU k` succeeds
and leaves slot `k`'s transform buffer holding exactly `transformsForGPU`, the
transform buffer of every other slot unchanged and all material buffers
unchanged. -/
theorem UpdateTransformsForGPU_round_trip (r : Renderer M V A P) (k : Nat)
    (buffer : List M)
    (hslot : r.transformStructuredBuffer[k]? = some (some buffer))
    (hsize : r.transformsForGPU.length = buffer.length) :
    ∃ r', UpdateTransformsForGPU r k = some r' ∧
      r'.transformStructuredBuffer[k]? = some (some r.transformsForGPU) ∧
      r'.transformsForGPU = r.transformsForGPU ∧
      (∀ j, j ≠ k → r'.transformStructuredBuffer[j]? = r.transformStructuredBuffer[j]?) ∧
      r'.materialStructuredBuffer = r.materialStructuredBuffer := by
  have hk : k < r.transformStructuredBuffer.length := by
    rcases List.getElem?_eq_some.mp hslot with ⟨h, _⟩
    exact h
  refine ⟨{ r with transformStructuredBuffer :=
      r.transformStructuredBuffer.set k (some r.transformsForGPU) }, ?_, ?_, rfl, ?_, rfl⟩
  · simp only [UpdateTransformsForGPU, hslot, memcpy, hsize, Nat.le_refl, if_true]
    rw [← hsize, List.drop_of_length_le (Nat.le_of_eq hsize.symm), List.append_nil]
  · exact List.getElem?_set_self hk
  · intro j hj
    exact List.getElem?_set_ne (Ne.symm hj)

/-- Witness for the amended C4: with three slots, writing slot 1 stores `[2, 3]`
there and slot 0 still reads its own data. -/
theorem UpdateTransformsForGPU_round_trip_witness :
    ∃ r', UpdateTransformsForGPU ringOfThree 1 = some r' ∧
      r'.transformStructuredBuffer[1]? = some (some [2, 3]) ∧
      r'.transformsForGPU = [2, 3] ∧
      (∀ j, j ≠ 1 → r'.transformStructuredBuffer[j]? =
        ([some [1, 1], some [4, 4], some [9, 9]] : List (Option (List Nat)))[j]?) ∧
      r'.materialStructuredBuffer = ringOfThree.materialStructuredBuffer :=
  UpdateTransformsForGPU_round_trip ringOfThree 1 [4, 4] rfl rfl

/-! ### Level swap -/

theorem HandleLevelSwapping_active [ElementBytes M] [ElementBytes V] [ElementBytes A]
    (loader : LevelLoader M V A P) (r : Renderer M V A P)
    (k1 k2 : Bool)
    (hactive : (k1 = true ∧ k2 = false ∧ r.level1 = true) ∨
      (k1 = false ∧ k2 = true ∧ r.level2 = true)) :
    HandleLevelSwapping loader r k1 k2 = some r := by
  rcases hactive with ⟨h1, h2, h3⟩ | ⟨h1, h2, h3⟩ <;>
    simp [HandleLevelSwapping, h1, h2, h3]

/-- The branch `HandleLevelSwapping` takes for a request of the non-active scene:
path index 0 when key 1 is pressed while level 1 is not active, path index 1 when
that test fails and key 2 is pressed while level 2 is not active. -/
theorem HandleLevelSwapping_requested [ElementBytes M] [ElementBytes V] [ElementBytes A]
    (loader : LevelLoader M V A P) (r : Renderer M V A P) (k1 k2 : Bool) (path : Nat)
    (hrequest : (k1 = true ∧ r.level1 = false ∧ path = 0) ∨
      ((k1 = false ∨ r.level1 = true) ∧ k2 = true ∧ r.level2 = false ∧ path = 1)) :
    HandleLevelSwapping loader r k1 k2 = swapLevel loader path r := by
  rcases hrequest with ⟨h1, h2, rfl⟩ | ⟨h1, h2, h3, rfl⟩
  · simp [HandleLevelSwapping, h1, h2]
  · rcases h1 with h1 | h1 <;> simp [HandleLevelSwapping, h1, h2, h3]

theorem largeScene_fit : BufferTablesFit largeScene :=
  ⟨⟨by decide, by decide⟩, ⟨by decide, by decide⟩, ⟨by decide, by decide⟩,
    ⟨by decide, by decide⟩⟩

theorem threeTransformScene_fit : BufferTablesFit threeTransformScene :=
  ⟨⟨by decide, by decide⟩, ⟨by decide, by decide⟩, ⟨by decide, by decide⟩,
    ⟨by decide, by decide⟩⟩

/-- C5: when level 1 is active and only key 1 is pressed, or level 2 is active and
only key 2 is pressed, `HandleLevelSwapping` returns the renderer unchanged (flags,
level data, geometry buffers, every frame slot, and the log of unload, load and
buffer-creation calls), so applying it any number of times equals applying it zero
times. -/
theorem HandleLevelSwapping_active_scene_noop
    [ElementBytes M] [ElementBytes V] [ElementBytes A] (loader : LevelLoader M V A P)
    (r : Renderer M V A P) (k1 k2 : Bool) (n : Nat)
    (hactive : (k1 = true ∧ k2 = false ∧ r.level1 = true) ∨
      (k1 = false ∧ k2 = true ∧ r.level2 = true)) :
    HandleLevelSwapping loader r k1 k2 = some r ∧
      pressRepeatedly loader k1 k2 n r = some r ∧
      pressRepeatedly loader k1 k2 n r = pressRepeatedly loader k1 k2 0 r := by
  have hstep := HandleLevelSwapping_active loader r k1 k2 hactive
  have hrep : pressRepeatedly loader k1 k2 n r = some r := by
    induction n with
    | zero => rfl
    | succ n ih => simp only [pressRepeatedly, hstep, ih]
  exact ⟨hstep, hrep, hrep⟩

/-- Witness for C5: level 1 active, key 1 pressed five times. -/
theorem HandleLevelSwapping_active_scene_noop_witness :
    HandleLevelSwapping twoLevelLoader (playingLevelOne 1 2) true false
        = some (playingLevelOne 1 2) ∧
      pressRepeatedly twoLevelLoader true false 5 (playingLevelOne 1 2)
        = some (playingLevelOne 1 2) ∧
      pressRepeatedly twoLevelLoader true false 5 (playingLevelOne 1 2)
        = pressRepeatedly twoLevelLoader true false 0 (playingLevelOne 1 2) :=
  HandleLevelSwapping_active_scene_noop twoLevelLoader (playingLevelOne 1 2) true false 5
    (Or.inl ⟨rfl, rfl, rfl⟩)

/-- C6, as stated, fails, on the renderer constructed over the 27-transform level
with three slots, level 1 active and key 2 pressed. When the loader fails after it
has read tables into the handle, `HandleLevelSwapping` still flips both flags, and
the handle and all buffers hold the tables the loader left, not level 1. When the
loader fails on a missing file and leaves the emptied tables, the rebuild requests
buffers of zero bytes and maps the null pointers: the call is undefined, not a
rejected swap. -/
theorem HandleLevelSwapping_failed_load_switches :
    (givingUpLoader.LoadLevel 9 9 (givingUpLoader.UnloadLevel largeScene)).2 = false ∧
    (∃ r0 r1 : Renderer Nat Nat Nat Nat, Renderer.ctor largeScene 3 true true = some r0 ∧
      HandleLevelSwapping givingUpLoader (withLevelPaths r0 [1, 9] [1, 9]) false true
        = some r1 ∧
      r0.level1 = true ∧ r0.level2 = false ∧ r1.level1 = false ∧ r1.level2 = true ∧
      r0.levelHandle = largeScene ∧ r1.levelHandle = threeTransformScene ∧
      r1.vertexBuffer = some [20, 21, 22] ∧
      r1.indexBuffer = some [0, 1, 2] ∧
      r1.transformStructuredBuffer = [some [5, 7, 11], some [5, 7, 11], some [5, 7, 11]] ∧
      r1.materialStructuredBuffer = [some [9], some [9], some [9]]) ∧
    (givingUpLoader.LoadLevel 8 8 (givingUpLoader.UnloadLevel largeScene)).2 = false ∧
    (∃ r0 : Renderer Nat Nat Nat Nat, Renderer.ctor largeScene 3 true true = some r0 ∧
      HandleLevelSwapping givingUpLoader (withLevelPaths r0 [1, 8] [1, 8]) false true
        = none) :=
  ⟨rfl, ⟨_, _, rfl, rfl, rfl, rfl, rfl, rfl, rfl, rfl, rfl, rfl, rfl, rfl⟩, rfl,
    ⟨_, rfl, rfl⟩⟩

/-- C6, amended: a swap to the non-active scene is requested (key 1 while level 1 is
not active, path index 0; otherwise key 2 while level 2 is not active, path index
1), the path index is registered in `gameLevelPaths` and `levelModelPaths`, both
slot vectors have an entry for each of the `maxActiveFrames` slots, the descriptor
heap exists with room for two views per slot, and each of the four tables the loader
leaves in the handle (vertices, indices, transforms, materials) is non-empty with a
byte size below `2^32`. Then `HandleLevelSwapping` returns and does not look at the
outcome of `LoadLevel`: whether or not loading fails, the active scene is unloaded,
`level1` and `level2` are both flipped, the handle holds the tables the loader left,
and the geometry buffers and every frame slot are rebuilt from those tables. -/
theorem HandleLevelSwapping_ignores_load_outcome
    [ElementBytes M] [ElementBytes V] [ElementBytes A] (loader : LevelLoader M V A P)
    (r : Renderer M V A P) (k1 k2 : Bool) (path : Nat) (gamePath modelPath : P)
    (heap : Nat)
    (hrequest : (k1 = true ∧ r.level1 = false ∧ path = 0) ∨
      ((k1 = false ∨ r.level1 = true) ∧ k2 = true ∧ r.level2 = false ∧ path = 1))
    (hgame : r.gameLevelPaths[path]? = some gamePath)
    (hmodel : r.levelModelPaths[path]? = some modelPath)
    (ht : r.maxActiveFrames ≤ r.transformStructuredBuffer.length)
    (hm : r.maxActiveFrames ≤ r.materialStructuredBuffer.length)
    (hheap : r.descriptorHeap = some heap)
    (hroom : r.maxActiveFrames * 2 ≤ heap)
    (hfit : BufferTablesFit
      (loader.LoadLevel gamePath modelPath (loader.UnloadLevel r.levelHandle)).1) :
    ∃ r', HandleLevelSwapping loader r k1 k2 = some r' ∧
      r'.level1 = (!r.level1) ∧ r'.level2 = (!r.level2) ∧
      r'.levelHandle = (loader.LoadLevel gamePath modelPath (loader.UnloadLevel r.levelHandle)).1 ∧
      r'.vertexBuffer = some r'.levelHandle.levelVertices ∧
      r'.indexBuffer = some r'.levelHandle.levelIndices ∧
      (∀ i, i < r.maxActiveFrames →
        r'.transformStructuredBuffer[i]? = some (some r'.levelHandle.levelTransforms) ∧
        r'.materialStructuredBuffer[i]? =
          some (some (r'.levelHandle.levelMaterials.map (fun x => x.attrib)))) := by
  obtain ⟨r', hrun, hl1, hl2, _, _, hlevel, hvb, hib, _, _, hslots⟩ :=
    swapLevel_spec loader path r hgame hmodel ht hm hheap hroom hfit
  rw [HandleLevelSwapping_requested loader r k1 k2 path hrequest]
  exact ⟨r', hrun, hl1, hl2, hlevel, hvb, hib, hslots⟩

/-- Witness for the amended C6: level 1 is active, key 2 is pressed and the load of
path 9 fails after the loader has left the tables of `threeTransformScene`. -/
theorem HandleLevelSwapping_ignores_load_outcome_witness :
    (givingUpLoader.LoadLevel 9 9 (givingUpLoader.UnloadLevel twoInstanceScene)).2 = false ∧
    ∃ r', HandleLevelSwapping givingUpLoader (playingLevelOne 1 9) false true = some r' ∧
      r'.level1 = false ∧ r'.level2 = true ∧
      r'.levelHandle = threeTransformScene ∧
      r'.vertexBuffer = some r'.levelHandle.levelVertices ∧
      r'.indexBuffer = some r'.levelHandle.levelIndices ∧
      (∀ i, i < 3 →
        r'.transformStructuredBuffer[i]? = some (some r'.levelHandle.levelTransforms) ∧
        r'.materialStructuredBuffer[i]? =
          some (some (r'.levelHandle.levelMaterials.map (fun x => x.attrib)))) :=
  ⟨rfl, HandleLevelSwapping_ignores_load_outcome givingUpLoader (playingLevelOne 1 9)
    false true 1 9 9 6 (Or.inr ⟨Or.inl rfl, rfl, rfl, rfl⟩) rfl rfl (by decide) (by decide)
    rfl (by decide) threeTransformScene_fit⟩

/-- C7, as stated, fails: `selfParentScene` contains an object that is its own
parent, yet construction returns a renderer whose vertex, index and per-slot
buffers have been created, and `LinkChildrenToParent` runs on it. -/
theorem ctor_accepts_self_parent :
    (∃ o ∈ selfParentScene.blenderObjects,
      o.parentTransformIndex = (o.transformIndex : Int)) ∧
    ∃ r : Renderer Nat Nat Nat Nat, Renderer.ctor selfParentScene 2 true true = some r ∧
      r.vertexBuffer = some [10, 11, 12] ∧
      r.indexBuffer = some [0, 1, 2] ∧
      r.transformStructuredBuffer =
        [some (List.replicate 27 1), some (List.replicate 27 1)] ∧
      r.materialStructuredBuffer = [some [7], some [7]] ∧
      (LinkChildrenToParent r).isSome = true :=
  ⟨⟨⟨0, 0⟩, by simp [selfParentScene], rfl⟩, _, rfl, rfl, rfl, rfl, rfl, rfl⟩

/-- C7, amended: construction performs no scene-graph check. For every scene,
self-referential parent links or not, that has the transform at index 26 which the
constructor reads and whose vertex, index, transform and material tables are each
non-empty with a byte size below `2^32`, for every frame count from 1 on whose
double is below `2^32`, and when both shaders compile, construction succeeds with
level 1 active, copies `levelTransforms` into `transformsForGPU`, creates the
descriptor heap and creates the vertex buffer, the index buffer and, for every slot,
the transform and material buffers from the scene. -/
theorem ctor_builds_without_graph_check
    [ElementBytes M] [ElementBytes V] [ElementBytes A]
    (lvl : Level_Data M V A) (BufferCount : Nat)
    (hdog : 26 < lvl.levelTransforms.length)
    (hfit : BufferTablesFit lvl)
    (hframes : 0 < BufferCount)
    (hheap : BufferCount * 2 < UINT_RANGE) :
    ∃ r : Renderer M V A P, Renderer.ctor lvl BufferCount true true = some r ∧
      r.levelHandle = lvl ∧ r.maxActiveFrames = BufferCount ∧
      r.level1 = true ∧ r.level2 = false ∧
      r.transformsForGPU = lvl.levelTransforms ∧
      r.vertexBuffer = some lvl.levelVertices ∧
      r.indexBuffer = some lvl.levelIndices ∧
      r.descriptorHeap = some (BufferCount * 2) ∧
      r.transformStructuredBuffer.length = BufferCount ∧
      r.materialStructuredBuffer.length = BufferCount ∧
      (∀ i, i < BufferCount →
        r.transformStructuredBuffer[i]? = some (some lvl.levelTransforms) ∧
        r.materialStructuredBuffer[i]? =
          some (some (lvl.levelMaterials.map (fun x => x.attrib)))) :=
  ctor_spec lvl BufferCount hdog hfit hframes hheap

/-- Witness for the amended C7, at the self-parented scene with two frames. -/
theorem ctor_builds_without_graph_check_witness :
    (∃ o ∈ selfParentScene.blenderObjects,
      o.parentTransformIndex = (o.transformIndex : Int)) ∧
    ∃ r : Renderer Nat Nat Nat Nat, Renderer.ctor selfParentScene 2 true true = some r ∧
      r.levelHandle = selfParentScene ∧ r.maxActiveFrames = 2 ∧
      r.level1 = true ∧ r.level2 = false ∧
      r.transformsForGPU = selfParentScene.levelTransforms ∧
      r.vertexBuffer = some selfParentScene.levelVertices ∧
      r.indexBuffer = some selfParentScene.levelIndices ∧
      r.descriptorHeap = some (2 * 2) ∧
      r.transformStructuredBuffer.length = 2 ∧
      r.materialStructuredBuffer.length = 2 ∧
      (∀ i, i < 2 →
        r.transformStructuredBuffer[i]? = some (some selfParentScene.levelTransforms) ∧
        r.materialStructuredBuffer[i]? =
          some (some (selfParentScene.levelMaterials.map (fun x => x.attrib)))) :=
  ⟨⟨⟨0, 0⟩, by simp [selfParentScene], rfl⟩,
    ctor_builds_without_graph_check selfParentScene 2 (by decide)
      ⟨⟨by decide, by decide⟩, ⟨by decide, by decide⟩, ⟨by decide, by decide⟩,
        ⟨by decide, by decide⟩⟩
      (by decide) (by decide)⟩

/-- C8 on the code: level 1 (two transforms) is active, key 2 is pressed and level 2
(three transforms) loads successfully; after `HandleLevelSwapping` the handle and
every slot hold the new transforms `[5, 7, 11]`, but `transformsForGPU` is still the
old level's `[2, 3]`: the swap never rebuilds the working array. -/
theorem HandleLevelSwapping_keeps_old_working_array :
    twoLevelLoader.LoadLevel 2 2 (twoLevelLoader.UnloadLevel twoInstanceScene)
        = (threeTransformScene, true) ∧
    ∃ r1, HandleLevelSwapping twoLevelLoader (playingLevelOne 1 2) false true = some r1 ∧
      r1.level1 = false ∧ r1.level2 = true ∧
      r1.levelHandle.levelTransforms = [5, 7, 11] ∧
      r1.transformStructuredBuffer = [some [5, 7, 11], some [5, 7, 11], some [5, 7, 11]] ∧
      r1.transformsForGPU = [2, 3] ∧
      r1.transformsForGPU.length ≠ r1.levelHandle.levelTransforms.length :=
  ⟨rfl, _, rfl, rfl, rfl, rfl, rfl, rfl, by decide⟩

/-- C9, as stated, fails, on the renderer constructed over the 27-transform level
with three slots, level 1 active and key 2 pressed. A level without materials loads
successfully; the rebuild then requests material buffers of zero bytes and maps the
null pointers, so the call is undefined. A level with `2^30 + 1` indices loads
successfully; the byte size `2^32 + 4` of its index table reaches
`CreateIndexBuffer` as 4, and after the swap the index buffer holds one index, not
the level's index table. -/
theorem HandleLevelSwapping_rebuild_needs_fitting_tables :
    oddLevelsLoader.LoadLevel 3 3 (oddLevelsLoader.UnloadLevel largeScene)
        = (noMaterialScene, true) ∧
    (∃ r0 : Renderer Nat Nat Nat Nat, Renderer.ctor largeScene 3 true true = some r0 ∧
      HandleLevelSwapping oddLevelsLoader (withLevelPaths r0 [1, 3] [1, 3]) false true
        = none) ∧
    oddLevelsLoader.LoadLevel 4 4 (oddLevelsLoader.UnloadLevel largeScene)
        = (manyIndexScene, true) ∧
    (∃ r0 r1 : Renderer Nat Nat Nat Nat, Renderer.ctor largeScene 3 true true = some r0 ∧
      HandleLevelSwapping oddLevelsLoader (withLevelPaths r0 [1, 4] [1, 4]) false true
        = some r1 ∧
      r1.levelHandle = manyIndexScene ∧
      r1.levelHandle.levelIndices.length = 1073741825 ∧
      r1.indexBuffer = some [0] ∧
      r1.indexBuffer ≠ some r1.levelHandle.levelIndices) := by
  refine ⟨rfl, ⟨_, rfl, rfl⟩, rfl, ?_⟩
  obtain ⟨r0, hctor, hlevel, hframes, hl1, hl2, _, _, _, hheap, hlt, hlm, _⟩ :=
    (ctor_spec largeScene 3 (by decide) largeScene_fit (by decide) (by decide) :
      ∃ r : Renderer Nat Nat Nat Nat, Renderer.ctor largeScene 3 true true = some r ∧ _)
  have hlen : manyIndexScene.levelIndices.length = 1073741825 := by
    simp only [manyIndexScene, List.length_replicate]
  have hbytes : toUINT (sizeofIndex * 1073741825) = 4 := by decide
  have hfill : createAndFill sizeofIndex
      (toUINT (sizeofIndex * manyIndexScene.levelIndices.length))
      (toUINT (sizeofIndex * manyIndexScene.levelIndices.length))
      manyIndexScene.levelIndices = some [0] := by
    rw [hlen, hbytes]
    simp only [manyIndexScene, createAndFill, sizeofIndex, List.take_replicate]
    decide
  obtain ⟨t, m, hrun, _, _, _, _⟩ :=
    swapLevel_general oddLevelsLoader 1 (withLevelPaths r0 [1, 4] [1, 4])
      (rfl : (withLevelPaths r0 [1, 4] [1, 4]).gameLevelPaths[1]? = some 4)
      (rfl : (withLevelPaths r0 [1, 4] [1, 4]).levelModelPaths[1]? = some 4)
      (show r0.maxActiveFrames ≤ r0.transformStructuredBuffer.length by omega)
      (show r0.maxActiveFrames ≤ r0.materialStructuredBuffer.length by omega)
      hheap (show r0.maxActiveFrames * 2 ≤ 3 * 2 by omega)
      (show 0 < manyIndexScene.levelVertices.length ∧
          ElementBytes.sizeofBytes Nat * manyIndexScene.levelVertices.length < UINT_RANGE
        from ⟨by decide, by decide⟩)
      hfill
      (show 0 < manyIndexScene.levelTransforms.length ∧
          ElementBytes.sizeofBytes Nat * manyIndexScene.levelTransforms.length < UINT_RANGE
        from ⟨by decide, by decide⟩)
      (show 0 < manyIndexScene.levelMaterials.length ∧
          ElementBytes.sizeofBytes Nat * manyIndexScene.levelMaterials.length < UINT_RANGE
        from ⟨by decide, by decide⟩)
  have hbranch := HandleLevelSwapping_requested oddLevelsLoader
    (withLevelPaths r0 [1, 4] [1, 4]) false true 1
    (Or.inr ⟨Or.inl rfl, rfl, hl2, rfl⟩)
  refine ⟨r0, _, hctor, hbranch.trans hrun, rfl, hlen, rfl, ?_⟩
  intro h
  have h1 : ([0] : List Nat).length = manyIndexScene.levelIndices.length :=
    congrArg List.length (Option.some.inj h)
  rw [hlen] at h1
  exact absurd h1 (by decide)

/-- C9, amended: a swap to the non-active scene is requested (key 1 while level 1 is
not active, path index 0; otherwise key 2 while level 2 is not active, path index
1), the path index is registered in `gameLevelPaths` and `levelModelPaths`, both
slot vectors have exactly `maxActiveFrames` entries, the descriptor heap exists with
room for two views per slot, loading succeeds with the new scene, and each of the
new scene's four tables (vertices, indices, transforms, materials) is non-empty
with a byte size below `2^32`. Then `HandleLevelSwapping` returns, the handle holds
the new scene, the vertex and index buffers hold exactly its `levelVertices` and
`levelIndices`, and every slot `i < maxActiveFrames` has a transform buffer holding
exactly its `levelTransforms` and a material buffer holding exactly its materials'
attribute records, in order; there are no other slots. -/
theorem HandleLevelSwapping_rebuilds_all_buffers
    [ElementBytes M] [ElementBytes V] [ElementBytes A] (loader : LevelLoader M V A P)
    (r : Renderer M V A P) (k1 k2 : Bool) (path : Nat) (gamePath modelPath : P)
    (heap : Nat) (newScene : Level_Data M V A)
    (hrequest : (k1 = true ∧ r.level1 = false ∧ path = 0) ∨
      ((k1 = false ∨ r.level1 = true) ∧ k2 = true ∧ r.level2 = false ∧ path = 1))
    (hgame : r.gameLevelPaths[path]? = some gamePath)
    (hmodel : r.levelModelPaths[path]? = some modelPath)
    (hloaded : loader.LoadLevel gamePath modelPath (loader.UnloadLevel r.levelHandle)
      = (newScene, true))
    (ht : r.transformStructuredBuffer.length = r.maxActiveFrames)
    (hm : r.materialStructuredBuffer.length = r.maxActiveFrames)
    (hheap : r.descriptorHeap = some heap)
    (hroom : r.maxActiveFrames * 2 ≤ heap)
    (hfit : BufferTablesFit newScene) :
    ∃ r', HandleLevelSwapping loader r k1 k2 = some r' ∧
      r'.levelHandle = newScene ∧
      r'.maxActiveFrames = r.maxActiveFrames ∧
      r'.vertexBuffer = some newScene.levelVertices ∧
      r'.indexBuffer = some newScene.levelIndices ∧
      r'.transformStructuredBuffer.length = r.maxActiveFrames ∧
      r'.materialStructuredBuffer.length = r.maxActiveFrames ∧
      (∀ i, i < r.maxActiveFrames →
        r'.transformStructuredBuffer[i]? = some (some newScene.levelTransforms) ∧
        r'.materialStructuredBuffer[i]? =
          some (some (newScene.levelMaterials.map (fun x => x.attrib)))) := by
  have hscene : (loader.LoadLevel gamePath modelPath
      (loader.UnloadLevel r.levelHandle)).1 = newScene := by rw [hloaded]
  obtain ⟨r', hrun, _, _, hframes, _, hlevel, hvb, hib, hlt, hlm, hslots⟩ :=
    swapLevel_spec loader path r hgame hmodel (Nat.le_of_eq ht.symm) (Nat.le_of_eq hm.symm)
      hheap hroom (hscene ▸ hfit)
  rw [HandleLevelSwapping_requested loader r k1 k2 path hrequest]
  rw [hscene] at hlevel
  rw [hlevel] at hvb hib hslots
  exact ⟨r', hrun, hlevel, hframes, hvb, hib, hlt.trans ht, hlm.trans hm, hslots⟩

/-- Witness for the amended C9: the swap from the two-instance level to the
three-transform level. -/
theorem HandleLevelSwapping_rebuilds_all_buffers_witness :
    ∃ r', HandleLevelSwapping twoLevelLoader (playingLevelOne 1 2) false true = some r' ∧
      r'.levelHandle = threeTransformScene ∧
      r'.maxActiveFrames = 3 ∧
      r'.vertexBuffer = some [20, 21, 22] ∧
      r'.indexBuffer = some [0, 1, 2] ∧
      r'.transformStructuredBuffer.length = 3 ∧
      r'.materialStructuredBuffer.length = 3 ∧
      (∀ i, i < 3 →
        r'.transformStructuredBuffer[i]? = some (some [5, 7, 11]) ∧
        r'.materialStructuredBuffer[i]? = some (some [9])) :=
  HandleLevelSwapping_rebuilds_all_buffers twoLevelLoader (playingLevelOne 1 2) false true 1 2 2
    6 threeTransformScene (Or.inr ⟨Or.inl rfl, rfl, rfl, rfl⟩) rfl rfl rfl rfl rfl rfl
    (by decide) threeTransformScene_fit

/-! ### Ordered pass of the transform compositor -/

theorem set_of_getElem?_eq {α : Type} {l : List α} {i : Nat} {x : α}
    (h : l[i]? = some x) : l.set i x = l := by
  apply List.ext_getElem?
  intro j
  by_cases hj : i = j
  · subst hj
    rw [List.getElem?_set_self (List.getElem?_eq_some.mp h).1, h]
  · rw [List.getElem?_set_ne hj]

/-- Two positions of a list with distinct transform indices that carry the same
transform index are the same position. -/
theorem position_unique {objs : List BLENDER_OBJECT}
    (hdistinct : DistinctTransformIndices objs) {i j : Nat} {a b : BLENDER_OBJECT}
    (ha : objs[i]? = some a) (hb : objs[j]? = some b)
    (h : a.transformIndex = b.transformIndex) : i = j := by
  have hi : i < (objs.map (fun o => o.transformIndex)).length := by
    rw [List.length_map]
    exact (List.getElem?_eq_some.mp ha).1
  apply List.getElem?_inj hi hdistinct
  rw [List.getElem?_map, List.getElem?_map, ha, hb]
  simp [h]

/-- The authoring order, with distinct transform indices, rules out self-parents. -/
theorem noSelfParent_of_listedBefore {objs : List BLENDER_OBJECT}
    (hdistinct : DistinctTransformIndices objs)
    (horder : ParentObjectListedBefore objs) :
    ∀ o ∈ objs, o.parentTransformIndex ≠ (o.transformIndex : Int) := by
  intro o ho heq
  obtain ⟨i, hi⟩ := List.getElem?_of_mem ho
  have hp : hasParent o := by
    unfold hasParent
    rw [heq]
    omega
  obtain ⟨j, q, hji, hq, hqp⟩ := horder i o hi hp
  have : j = i := position_unique hdistinct hq hi (by
    have := hqp.trans heq
    exact Int.ofNat.inj this)
  omega

/-- The authoring order, with distinct transform indices, gives the processing
order the pass needs: no later object owns an earlier child's parent slot. -/
theorem parentsListedFirst_of_listedBefore {objs : List BLENDER_OBJECT}
    (hdistinct : DistinctTransformIndices objs)
    (horder : ParentObjectListedBefore objs) : ParentsListedFirst objs := by
  unfold ParentsListedFirst
  rw [List.pairwise_iff_getElem]
  intro i j hi hj hij hpa _ heq
  obtain ⟨k, q, hki, hq, hqp⟩ := horder i objs[i] (List.getElem?_eq_getElem hi) hpa
  have : k = j := position_unique hdistinct hq (List.getElem?_eq_getElem hj) (by
    have := hqp.trans heq
    exact Int.ofNat.inj this)
  omega

/-- A working array in which every child already holds `local * parent` is a fixed
point of the pass. -/
theorem linkLoop_fixed [Mul M] (lt tf : List M) :
    ∀ objs : List BLENDER_OBJECT,
      (∀ o ∈ objs, hasParent o → ∃ a b, lt[o.transformIndex]? = some a ∧
        readAt tf o.parentTransformIndex = some b ∧
        tf[o.transformIndex]? = some (a * b)) →
      linkLoop lt objs tf = some tf := by
  intro objs
  induction objs with
  | nil => intro _; rfl
  | cons o rest ih =>
    intro h
    have hrest := ih (fun o' ho' => h o' (List.mem_cons_of_mem _ ho'))
    by_cases hp : hasParent o
    · obtain ⟨a, b, ha, hb, hab⟩ := h o (List.mem_cons_self _ _) hp
      have hstep : linkOne lt tf o = some tf := by
        unfold hasParent at hp
        simp only [linkOne]
        rw [if_pos hp, ha, hb]
        simp only [writeAt, (List.getElem?_eq_some.mp hab).1, if_true,
          set_of_getElem?_eq hab]
      simp only [linkLoop, hstep]
      exact hrest
    · simp only [linkLoop, linkOne_of_noParent lt tf o hp]
      exact hrest

/-- The pass over a list in authoring order, from any working array that has an
entry at every object's transform index: it succeeds, every child ends as
`local * final parent`, and every slot that belongs to no child keeps its value. -/
theorem linkLoop_ordered [Mul M] (lt tf : List M) (objs : List BLENDER_OBJECT)
    (hdistinct : DistinctTransformIndices objs)
    (hrange : ∀ o ∈ objs, o.transformIndex < lt.length)
    (horder : ParentObjectListedBefore objs)
    (hentries : ∀ o ∈ objs, o.transformIndex < tf.length) :
    ∃ tf', linkLoop lt objs tf = some tf' ∧ tf'.length = tf.length ∧
      (∀ o ∈ objs, hasParent o → ∃ a b, lt[o.transformIndex]? = some a ∧
        readAt tf' o.parentTransformIndex = some b ∧
        tf'[o.transformIndex]? = some (a * b)) ∧
      (∀ t, (∀ o ∈ objs, hasParent o → o.transformIndex ≠ t) → tf'[t]? = tf[t]?) := by
  have hparent : ∀ o ∈ objs, hasParent o →
      0 ≤ o.parentTransformIndex ∧ o.parentTransformIndex.toNat < tf.length := by
    intro o ho hp
    obtain ⟨i, hi⟩ := List.getElem?_of_mem ho
    obtain ⟨j, q, _, hq, hqp⟩ := horder i o hi hp
    have hqr := hentries q (List.getElem?_mem hq)
    rw [← hqp]
    exact ⟨Int.ofNat_nonneg _, by simpa using hqr⟩
  obtain ⟨tf', hrun, hlen, hkeep, hcomp⟩ :=
    linkLoop_spec lt objs tf
      (fun o ho => ⟨hrange o ho, hentries o ho, hparent o ho⟩) hdistinct
      (noSelfParent_of_listedBefore hdistinct horder)
      (parentsListedFirst_of_listedBefore hdistinct horder)
  refine ⟨tf', hrun, hlen, ?_, hkeep⟩
  intro o ho hp
  obtain ⟨a, b, ha, hb, hab⟩ := hcomp o ho hp
  exact ⟨a, b, ha, by rw [readAt_eq_some (hparent o ho hp).1]; exact hb, hab⟩

theorem chainParentFirst_listedBefore :
    ParentObjectListedBefore chainParentFirst.blenderObjects := by
  intro i o hi hp
  match i, hi with
  | 0, hi =>
    obtain rfl : (⟨0, -1⟩ : BLENDER_OBJECT) = o := Option.some.inj hi
    exact absurd hp (by simp [hasParent])
  | 1, hi =>
    obtain rfl : (⟨1, 0⟩ : BLENDER_OBJECT) = o := Option.some.inj hi
    exact ⟨0, ⟨0, -1⟩, by omega, rfl, rfl⟩
  | 2, hi =>
    obtain rfl : (⟨2, 1⟩ : BLENDER_OBJECT) = o := Option.some.inj hi
    exact ⟨1, ⟨1, 0⟩, by omega, rfl, rfl⟩
  | n + 3, hi => exact absurd hi (by simp [chainParentFirst, chainScene])

theorem chainParentFirst_below (n : Nat) (h : 3 ≤ n) :
    ∀ o ∈ chainParentFirst.blenderObjects, o.transformIndex < n := by
  intro o ho
  simp [chainParentFirst, chainScene] at ho
  rcases ho with rfl | rfl | rfl <;> simp <;> omega

/-- C11, as stated, fails: the chain listed root first has pairwise distinct
transform indices inside `levelTransforms` and every child listed after its parent,
yet from the working array `[7, 1]` the pass has to write entry 2 of a two-element
array: the run is undefined, so not every working array will do. -/
theorem LinkChildrenToParent_short_working_array :
    DistinctTransformIndices chainParentFirst.blenderObjects ∧
    (∀ o ∈ chainParentFirst.blenderObjects,
      o.transformIndex < chainParentFirst.levelTransforms.length) ∧
    ParentObjectListedBefore chainParentFirst.blenderObjects ∧
    LinkChildrenToParent
      (rendererOver chainParentFirst [7, 1] 2 : Renderer Nat Nat Nat Nat) = none :=
  ⟨by simp [DistinctTransformIndices, chainParentFirst, chainScene],
    chainParentFirst_below 3 (Nat.le_refl 3), chainParentFirst_listedBefore, rfl⟩

/-- C11, amended: when the objects' transform indices are pairwise distinct and in
range of `levelTransforms`, every object with a parent is listed after the object
that owns its parent transform, and the working array has an entry at every
object's transform index, one run of `LinkChildrenToParent` succeeds, leaves every
child equal to `levelTransforms[child] * final transformsForGPU[parent]`, leaves
every parentless object's entry as it was, and a second run returns the same
renderer. -/
theorem LinkChildrenToParent_ordered_pass [Mul M] (r : Renderer M V A P)
    (hdistinct : DistinctTransformIndices r.levelHandle.blenderObjects)
    (hrange : ∀ o ∈ r.levelHandle.blenderObjects,
      o.transformIndex < r.levelHandle.levelTransforms.length)
    (horder : ParentObjectListedBefore r.levelHandle.blenderObjects)
    (hentries : ∀ o ∈ r.levelHandle.blenderObjects,
      o.transformIndex < r.transformsForGPU.length) :
    ∃ r', LinkChildrenToParent r = some r' ∧
      (∀ o ∈ r.levelHandle.blenderObjects, hasParent o →
        ∃ a b, r.levelHandle.levelTransforms[o.transformIndex]? = some a ∧
          readAt r'.transformsForGPU o.parentTransformIndex = some b ∧
          r'.transformsForGPU[o.transformIndex]? = some (a * b)) ∧
      (∀ o ∈ r.levelHandle.blenderObjects, ¬ hasParent o →
        r'.transformsForGPU[o.transformIndex]? = r.transformsForGPU[o.transformIndex]?) ∧
      LinkChildrenToParent r' = some r' := by
  obtain ⟨tf', hrun, _, hcomposed, hkeep⟩ :=
    linkLoop_ordered r.levelHandle.levelTransforms r.transformsForGPU
      r.levelHandle.blenderObjects hdistinct hrange horder hentries
  have hfirst : LinkChildrenToParent r = some { r with transformsForGPU := tf' } := by
    simp only [LinkChildrenToParent, hrun]
  refine ⟨_, hfirst, hcomposed, ?_, ?_⟩
  · intro o ho hp
    show tf'[o.transformIndex]? = _
    apply hkeep
    intro o' ho' hp' heq
    have := List.inj_on_of_nodup_map hdistinct ho' ho heq
    exact hp (this ▸ hp')
  · have hagain := linkLoop_fixed r.levelHandle.levelTransforms tf'
      r.levelHandle.blenderObjects hcomposed
    simp only [LinkChildrenToParent, hagain]

/-- Witness for the amended C11: the chain listed root first, started from the
four-element working array `[7, 1, 1, 9]`, ends with `[7, 21, 105, 9]` and a second
run keeps it. -/
theorem LinkChildrenToParent_ordered_pass_witness :
    ∃ r', LinkChildrenToParent
        (rendererOver chainParentFirst [7, 1, 1, 9] 2 : Renderer Nat Nat Nat Nat)
        = some r' ∧
      (∀ o ∈ chainParentFirst.blenderObjects, hasParent o →
        ∃ a b, chainParentFirst.levelTransforms[o.transformIndex]? = some a ∧
          readAt r'.transformsForGPU o.parentTransformIndex = some b ∧
          r'.transformsForGPU[o.transformIndex]? = some (a * b)) ∧
      (∀ o ∈ chainParentFirst.blenderObjects, ¬ hasParent o →
        r'.transformsForGPU[o.transformIndex]? =
          ([7, 1, 1, 9] : List Nat)[o.transformIndex]?) ∧
      LinkChildrenToParent r' = some r' :=
  LinkChildrenToParent_ordered_pass (rendererOver chainParentFirst [7, 1, 1, 9] 2)
    (by simp [DistinctTransformIndices, chainParentFirst, chainScene, rendererOver])
    (chainParentFirst_below 3 (Nat.le_refl 3))
    chainParentFirst_listedBefore
    (chainParentFirst_below 4 (by decide))

/-! ### Update pass -/

/-- C12, as stated, fails: in `animatedChildScene` the animated object 31 is a child
of object 0. `RotateObjectY` turns its entry into 6, but `LinkChildrenToParent` then
overwrites it with `levelTransforms[31] * transformsForGPU[0] = 2 * 2 = 4`, not with
the animated transform times the parent, `6 * 2`. -/
theorem Update_discards_child_rotation :
    animatedChildScene.blenderObjects[31]? = some ⟨31, 0⟩ ∧
    hasParent ⟨31, 0⟩ ∧
    localOrAnimated tripleRotation
      (rendererOver animatedChildScene (List.replicate 32 2) 2 : Renderer Nat Nat Nat Nat)
      31 ⟨31, 0⟩ = some 6 ∧
    ∃ r', Update tripleRotation
        (rendererOver animatedChildScene (List.replicate 32 2) 2 : Renderer Nat Nat Nat Nat)
        = some r' ∧
      readAt r'.transformsForGPU 0 = some 2 ∧
      r'.transformsForGPU[31]? = some 4 ∧
      r'.transformsForGPU[31]? ≠ some (6 * 2) :=
  ⟨rfl, by decide, rfl, _, rfl, rfl, rfl, by decide⟩

theorem RotateObjectY_eq (rotateYLocal : Int → M → M) (r : Renderer M V A P)
    (blenderObjIndex : Nat) (degrees : Int) {o : BLENDER_OBJECT} {m : M}
    (ho : r.levelHandle.blenderObjects[blenderObjIndex]? = some o)
    (hm : r.transformsForGPU[o.transformIndex]? = some m) :
    RotateObjectY rotateYLocal r blenderObjIndex degrees =
      some { r with transformsForGPU :=
        r.transformsForGPU.set o.transformIndex (rotateYLocal degrees m) } := by
  simp only [RotateObjectY, ho, hm, writeAt_of_lt _ (List.getElem?_eq_some.mp hm).1]

/-- C12, amended: when `blenderObjects` has an object at position 31, the objects'
transform indices are pairwise distinct and in range of `levelTransforms`, every
object with a parent is listed after the object that owns its parent transform, and
the working array has an entry at every object's transform index, one `Update` pass
succeeds and leaves every object with a parent, the animated object 31 included
when it has one, equal to its load-time local transform
`levelTransforms[transformIndex]` times the parent's final working transform, in its
own slot; the result of `RotateObjectY` survives only when the animated object has
no parent, and every other parentless object's entry is unchanged. -/
theorem Update_composes_load_time_locals [Mul M] (rotateYLocal : Int → M → M)
    (r : Renderer M V A P) (animated : BLENDER_OBJECT)
    (hanimated : r.levelHandle.blenderObjects[31]? = some animated)
    (hdistinct : DistinctTransformIndices r.levelHandle.blenderObjects)
    (hrange : ∀ o ∈ r.levelHandle.blenderObjects,
      o.transformIndex < r.levelHandle.levelTransforms.length)
    (horder : ParentObjectListedBefore r.levelHandle.blenderObjects)
    (hentries : ∀ o ∈ r.levelHandle.blenderObjects,
      o.transformIndex < r.transformsForGPU.length) :
    ∃ r', Update rotateYLocal r = some r' ∧
      (∀ o ∈ r.levelHandle.blenderObjects, hasParent o →
        ∃ a b, r.levelHandle.levelTransforms[o.transformIndex]? = some a ∧
          readAt r'.transformsForGPU o.parentTransformIndex = some b ∧
          r'.transformsForGPU[o.transformIndex]? = some (a * b)) ∧
      (¬ hasParent animated →
        r'.transformsForGPU[animated.transformIndex]? =
          (r.transformsForGPU[animated.transformIndex]?).map (rotateYLocal 90)) ∧
      (∀ o ∈ r.levelHandle.blenderObjects, ¬ hasParent o →
        o.transformIndex ≠ animated.transformIndex →
        r'.transformsForGPU[o.transformIndex]? = r.transformsForGPU[o.transformIndex]?) := by
  have hmem : animated ∈ r.levelHandle.blenderObjects := List.getElem?_mem hanimated
  have hlt : animated.transformIndex < r.transformsForGPU.length :=
    hentries animated hmem
  have hm := List.getElem?_eq_getElem hlt
  have hrot := RotateObjectY_eq rotateYLocal r 31 90 hanimated hm
  obtain ⟨tf', hrun, _, hcomposed, hkeep⟩ :=
    linkLoop_ordered r.levelHandle.levelTransforms
      (r.transformsForGPU.set animated.transformIndex
        (rotateYLocal 90 r.transformsForGPU[animated.transformIndex]))
      r.levelHandle.blenderObjects hdistinct hrange horder
      (by simpa using hentries)
  have hupdate : Update rotateYLocal r = some { r with transformsForGPU := tf' } := by
    simp only [Update, hrot, LinkChildrenToParent, hrun]
  have hother : ∀ o ∈ r.levelHandle.blenderObjects, ¬ hasParent o →
      ∀ o' ∈ r.levelHandle.blenderObjects, hasParent o' →
        o'.transformIndex ≠ o.transformIndex := by
    intro o ho hp o' ho' hp' heq
    have := List.inj_on_of_nodup_map hdistinct ho' ho heq
    exact hp (this ▸ hp')
  refine ⟨_, hupdate, hcomposed, ?_, ?_⟩
  · intro hp
    show tf'[animated.transformIndex]? = _
    rw [hkeep _ (hother animated hmem hp), List.getElem?_set_self hlt, hm]
    rfl
  · intro o ho hp hne
    show tf'[o.transformIndex]? = _
    rw [hkeep _ (hother o ho hp), List.getElem?_set_ne (Ne.symm hne)]

theorem rootsThenChild_getElem?_lt {n i : Nat} (p : Int) (h : i < n) :
    (rootsThenChild n p)[i]? = some ⟨i, -1⟩ := by
  unfold rootsThenChild
  rw [List.getElem?_append_left (by simpa using h)]
  simp [List.getElem?_range h]

theorem rootsThenChild_mem {n : Nat} {p : Int} {o : BLENDER_OBJECT}
    (h : o ∈ rootsThenChild n p) :
    (∃ i, i < n ∧ o = ⟨i, -1⟩) ∨ o = ⟨n, p⟩ := by
  unfold rootsThenChild at h
  rcases List.mem_append.mp h with h | h
  · obtain ⟨i, hi, rfl⟩ := List.mem_map.mp h
    exact Or.inl ⟨i, List.mem_range.mp hi, rfl⟩
  · exact Or.inr (List.mem_singleton.mp h)

theorem rootsThenChild_distinct (n : Nat) (p : Int) :
    DistinctTransformIndices (rootsThenChild n p) := by
  unfold DistinctTransformIndices rootsThenChild
  have : List.map (fun o => o.transformIndex)
      (List.map (fun i => (⟨i, -1⟩ : BLENDER_OBJECT)) (List.range n) ++ [⟨n, p⟩])
      = List.range (n + 1) := by
    rw [List.range_succ]
    simp [Function.comp_def]
  rw [this]
  exact List.nodup_range _

theorem rootsThenChild_listedBefore {n p : Nat} (h : p < n) :
    ParentObjectListedBefore (rootsThenChild n (p : Int)) := by
  intro i o hi hp
  rcases Nat.lt_trichotomy i n with hlt | heq | hgt
  · rw [rootsThenChild_getElem?_lt _ hlt] at hi
    obtain rfl := Option.some.inj hi
    exact absurd hp (by simp [hasParent])
  · subst heq
    have hlast : (rootsThenChild i (p : Int))[i]? = some ⟨i, p⟩ := by
      unfold rootsThenChild
      rw [List.getElem?_append_right (by simp)]
      simp
    rw [hlast] at hi
    obtain rfl := Option.some.inj hi
    exact ⟨p, ⟨p, -1⟩, h, rootsThenChild_getElem?_lt _ h, rfl⟩
  · have : (rootsThenChild n (p : Int))[i]? = none := by
      apply List.getElem?_eq_none
      simp [rootsThenChild]
      omega
    rw [this] at hi
    exact absurd hi (by simp)

/-- Witness for the amended C12: object 31 has no parent and keeps its rotated
entry 6, its child 32 ends as `levelTransforms[32] * 6 = 12`. -/
theorem Update_composes_load_time_locals_witness :
    ∃ r', Update tripleRotation
        (rendererOver animatedParentScene (List.replicate 33 2) 2 : Renderer Nat Nat Nat Nat)
        = some r' ∧
      (∀ o ∈ animatedParentScene.blenderObjects, hasParent o →
        ∃ a b, animatedParentScene.levelTransforms[o.transformIndex]? = some a ∧
          readAt r'.transformsForGPU o.parentTransformIndex = some b ∧
          r'.transformsForGPU[o.transformIndex]? = some (a * b)) ∧
      (¬ hasParent ⟨31, -1⟩ →
        r'.transformsForGPU[31]? =
          ((List.replicate 33 2 : List Nat)[31]?).map (tripleRotation 90)) ∧
      (∀ o ∈ animatedParentScene.blenderObjects, ¬ hasParent o →
        o.transformIndex ≠ 31 →
        r'.transformsForGPU[o.transformIndex]? =
          (List.replicate 33 2 : List Nat)[o.transformIndex]?) :=
  Update_composes_load_time_locals tripleRotation
    (rendererOver animatedParentScene (List.replicate 33 2) 2) ⟨31, -1⟩ rfl
    (rootsThenChild_distinct 32 31)
    (by
      intro o ho
      rcases rootsThenChild_mem ho with ⟨i, hi, rfl⟩ | rfl
      · show i < (List.replicate 33 2).length
        simp
        omega
      · show 32 < (List.replicate 33 2).length
        simp)
    (rootsThenChild_listedBefore (by decide : 31 < 32))
    (by
      intro o ho
      rcases rootsThenChild_mem ho with ⟨i, hi, rfl⟩ | rfl
      · show i < (List.replicate 33 2).length
        simp
        omega
      · show 32 < (List.replicate 33 2).length
        simp)

/-! ### Slot capacity across a level swap -/

/-- C13 on the code: the renderer is constructed, both shaders compiling, on the
27-transform level with three slots, the two level files are registered, and the
next `Render` sees key 2 with the three-transform level loading successfully.
`HandleLevelSwapping` rebuilds every slot with capacity 3 but leaves
`transformsForGPU` at 27 elements, so `UpdateTransformsForGPU` has to copy 27
matrices into a buffer created for 3: the write runs past the end of the buffer and
`Render` is undefined. -/
theorem Render_copies_past_slot_after_swap :
    ∃ r0 r1 : Renderer Nat Nat Nat Nat,
      Renderer.ctor largeScene 3 true true = some r0 ∧
      HandleLevelSwapping largeThenSmallLoader (withLevelPaths r0 [1, 2] [1, 2]) false true
        = some r1 ∧
      r1.levelHandle.levelTransforms.length = 3 ∧
      r1.transformStructuredBuffer[0]? = some (some [5, 7, 11]) ∧
      r1.transformsForGPU.length = 27 ∧
      UpdateTransformsForGPU r1 0 = none ∧
      Render largeThenSmallLoader (withLevelPaths r0 [1, 2] [1, 2]) false true 0 = none :=
  ⟨_, _, rfl, rfl, rfl, rfl, rfl, rfl, rfl⟩

end LevelRenderer
